import Mathlib

/-!
Verification development for the `@borderless/site` server-side rendering library.

The definitions below are a shallow embedding of the request dispatcher and
streaming body renderer in `src/server.tsx`, together with the request types
from `src/index.ts`, the node adapter `fromNodeRequest`, the default document
template from `src/document.tsx`, and the default error page hook from
`src/error.server.tsx`.  An earlier revision of the server (with `onSubmit`,
`onRequest` and `waitForAllReady`) is embedded in the `V1` namespace.

Modelling conventions:
* JavaScript dynamic values are modelled by the inductive `JsVal`; thrown
  values are `JsVal`s carried in `Except`.
* A promise that may reject is `Except JsVal α` (its eventual settlement);
  `Promise.all` is `promiseAll4`.
* React components are opaque and identified by name (`String`); the element
  tree handed to the renderer is the inductive `Element`.
* External collaborators (the `@borderless/router` matcher,
  `decodeURIComponent`, `JSON.parse`) are fields of the `Ext` structure and
  passed explicitly; `JSON.stringify` is modelled executably on `JsVal`.
* `process.env.NODE_ENV === "production"` is the explicit parameter `isProd`.
-/

namespace Site

/-- Dynamic JavaScript values, as far as the dispatcher inspects or produces
them.  `exception name message` models a thrown `Error`-like object (e.g. a
`TypeError`); `objStatus` models a plain object carrying optional numeric
`status` / `statusCode` fields (all the default error page's
`getServerSideProps` reads); `errorProps` models the `ErrorProps` object built
by `src/error.server.tsx`; `obj tag` is any other opaque object. -/
inductive JsVal where
  | null
  | undef
  | bool (b : Bool)
  | num (n : Int)
  | str (s : String)
  | exception (name message : String)
  | emptyObj
  | objStatus (status statusCode : Option Nat)
  | errorProps (status : Nat) (stack : Option String)
  | obj (tag : String)
  deriving DecidableEq, Repr

/-- Model of `src/shared.tsx` `typeError`: builds the `TypeError` value such a thunk
throws when invoked. -/
def typeErrorVal (message : String) : JsVal := .exception ("TypeError") message

/-- Model of `RequestType` from `src/index.ts`: the adapter classifies the request body
encoding. -/
inductive RequestType where
  | UNKNOWN
  | FORM
  deriving DecidableEq, Repr

/-- Model of `URLSearchParams`-style query parameters: an ordered multimap. -/
structure SearchParams where
  pairs : List (String × String)
  deriving DecidableEq, Repr

/-- Model of `search.get(name)`: first value for the name, or null. -/
def SearchParams.get (p : SearchParams) (name : String) : Option String :=
  (p.pairs.find? (fun kv => kv.1 = name)).map (·.2)

/-- Model of `search.getAll(name)`: every value for the name, in order. -/
def SearchParams.getAll (p : SearchParams) (name : String) : List String :=
  (p.pairs.filter (fun kv => kv.1 = name)).map (·.2)

/-- The dispatcher-visible part of `Request` from `src/index.ts`: `method`,
`type`, `pathname` and `search`.  (The `headers` and the lazy `form` accessor
are consumed only by the adapter and by user handlers.) -/
structure Request where
  method : String
  type : RequestType
  pathname : String
  search : SearchParams
  deriving DecidableEq, Repr

/-- Model of `ServerSideContext` from `src/index.ts`: built once per request;
`error` is populated only on the error-recovery path. -/
structure ServerSideContext where
  key : String
  request : Request
  params : List (String × String)
  context : JsVal
  error : Option JsVal := none
  deriving DecidableEq, Repr

/-- Model of `redirect: { url }` inside `ServerSideProps`. -/
structure Redirect where
  url : String
  deriving DecidableEq, Repr

/-- Model of `ServerSideProps` from `src/index.ts`: `{ props, status?, redirect? }`. -/
structure ServerSideProps where
  props : JsVal
  status : Option Nat := none
  redirect : Option Redirect := none
  deriving DecidableEq, Repr

/-- Model of `getServerSideProps` hook: may throw (`Except.error`), may return
`undefined`/`null` (`Option`). -/
def GetServerSideProps : Type :=
  ServerSideContext → Except JsVal (Option ServerSideProps)

/-- Model of `PageModule`: the view module, `default` export optional. Components are
opaque; they are identified by name. -/
structure PageModule where
  default : Option String := none

/-- Model of `PageServerModule` from `src/server.tsx`: optional `getServerSideProps`,
`loader` and `form` hooks. -/
structure PageServerModule where
  getServerSideProps : Option GetServerSideProps := none
  loader : Option (ServerSideContext → List JsVal → Except JsVal JsVal) := none
  form : Option (ServerSideContext → Except JsVal JsVal) := none

/-- Model of `AppModule`: the app wrapper module. -/
structure AppModule where
  default : Option String := none

/-- Model of `HeadOptions` from `src/document.tsx`. -/
structure HeadOptions where
  htmlAttributes : String
  bodyAttributes : String
  head : String
  deriving DecidableEq, Repr

/-- Model of `TailOptions` from `src/document.tsx`. -/
structure TailOptions where
  script : String
  deriving DecidableEq, Repr

/-- Model of `DocumentModule`: `renderHead` / `renderTail` exports, possibly missing. -/
structure DocumentModule where
  renderHead : Option (HeadOptions → String) := none
  renderTail : Option (TailOptions → String) := none

/-- Model of `PAGE_ELEMENT_ID` from `src/common.ts`. -/
def PAGE_ELEMENT_ID : String := "__SITE__"

/-- Model of `GLOBAL_PAGE_DATA` from `src/common.ts`. -/
def GLOBAL_PAGE_DATA : String := "__SITE_DATA__"

/-- Default `renderHead` from `src/document.tsx`. -/
def documentRenderHead (o : HeadOptions) : String :=
  "<!doctype html><html" ++ o.htmlAttributes ++ "><head>" ++ o.head ++
    "</head><body" ++ o.bodyAttributes ++ "><div id=" ++ PAGE_ELEMENT_ID ++ ">"

/-- Default `renderTail` from `src/document.tsx`. -/
def documentRenderTail (o : TailOptions) : String :=
  "</div>" ++ o.script ++ "</body></html>"

/-- Model of `getStatus` from `src/error.server.tsx`: `error.status || error.statusCode`
when that is a number (`0` is falsy, so a `status` of `0` falls through to
`statusCode`), otherwise `500`.  The argument is optional because
`context.error` may be absent. -/
def getStatus (error : Option JsVal) : Nat :=
  match error with
  | some (.objStatus s sc) =>
      let v : Option Nat :=
        match s with
        | some n => if n = 0 then sc else some n
        | none => sc
      match v with
      | some n => n
      | none => 500
  | _ => 500

/-- Model of `getStack` from `src/error.server.tsx`.  The runtime-generated stack of a
thrown `Error` is opaque to the source (it just reads `error.stack`); the
model represents it as `name ++ ": " ++ message`.  Non-error thrown values
yield the source's fallback string. -/
def jsToString : JsVal → String
  | .null => "null"
  | .undef => "undefined"
  | .bool b => if b then ("true") else ("false")
  | .num n => toString n
  | .str s => s
  | .exception name message => name ++ ": " ++ message
  | .emptyObj => "[object Object]"
  | .objStatus _ _ => "[object Object]"
  | .errorProps _ _ => "[object Object]"
  | .obj _ => "[object Object]"

def getStack (isProd : Bool) (error : Option JsVal) : Option String :=
  if isProd then none
  else
    match error with
    | some (.exception name message) => some (name ++ ": " ++ message)
    | some v => some ("Non-error value thrown: " ++ jsToString v)
    | none => some ("Non-error value thrown: " ++ jsToString .undef)

/-- Model of `getServerSideProps` from `src/error.server.tsx` (the default error page's
server module). -/
def errorGetServerSideProps (isProd : Bool) : GetServerSideProps :=
  fun ctx =>
    let status := getStatus ctx.error
    let stack := getStack isProd ctx.error
    .ok (some { props := .errorProps status stack, status := some status, redirect := none })

/-- A match produced by the external `@borderless/router` matcher: the first
matching route key with captured parameter names and raw values. -/
structure RouterMatch where
  route : String
  keys : List String
  values : List String

/-- External collaborators used by the dispatcher: the router factory of
`@borderless/router`, the `decodeURIComponent` builtin (which may throw on
malformed escapes) and the `JSON.parse` builtin (which may throw on malformed
JSON). -/
structure Ext where
  createRouter : List String → String → Option RouterMatch
  decodeURIComponent : String → Except JsVal String
  jsonParse : String → Except JsVal JsVal

/-- Model of `decode` from `src/server.tsx`: `decodeURIComponent` with the raw value as
fallback on a malformed escape. -/
def decode (ext : Ext) (value : String) : String :=
  match ext.decodeURIComponent value with
  | .ok s => s
  | .error _ => value

/-- Model of `ServerPage` from `src/server.tsx`: a registered page.  `module` and
`serverModule` are lazily-resolved modules; a promise that may reject is
`Except JsVal`. -/
structure ServerPage where
  module : Except JsVal PageModule
  serverModule : Option (Except JsVal PageServerModule) := none
  url : Option String := none
  css : Option (List String) := none

/-- Model of `ServerOptions` from `src/server.tsx`. -/
structure ServerOptions where
  pages : List (String × ServerPage)
  error : Option ServerPage := none
  notFound : Option ServerPage := none
  app : Option (Except JsVal AppModule) := none
  document : Option (Except JsVal DocumentModule) := none

/-- Model of `Route` from `src/server.tsx`. -/
structure Route where
  key : String
  module : Except JsVal PageModule
  serverModule : Except JsVal PageServerModule
  scriptUrl : Option String
  cssUrls : Option (List String)
  params : List (String × String)

/-- The element tree handed to React: either a bare page component or the page
wrapped in the app component. -/
inductive Element where
  | comp (name : String)
  | app (appName : String) (child : Element)
  deriving DecidableEq, Repr

/-- Model of `RenderContext` from `src/server.tsx` (the `helmetContext`, a fresh empty
object per render, carries no dispatcher-relevant data and is omitted). -/
structure RenderContext where
  route : Route
  serverSideProps : Option ServerSideProps
  loader : List JsVal → Except JsVal JsVal
  formData : Option JsVal
  renderHead : HeadOptions → String
  renderTail : TailOptions → String

/-- The streaming body value (`class ReactBody`). -/
structure ReactBody where
  page : Element
  context : RenderContext

/-- A `Response` body: a streaming `ReactBody` or a plain string. -/
inductive ResBody where
  | react (b : ReactBody)
  | str (s : String)

/-- Model of `Response` from `src/server.tsx`. -/
structure Response where
  status : Nat
  headers : List (String × String)
  body : Option ResBody

/-- Observable hook invocations, recorded at each call site of the
dispatcher. -/
inductive Event where
  | formInvoke
  | gsspInvoke
  | loaderInvoke
  | recoveryEnter
  deriving DecidableEq, Repr

/-- The settlement of one dispatcher invocation: the hook-invocation trace,
the value caught by the dispatcher's `catch` (when entered), and the result —
`Except.error` models a rejection propagating out of the dispatcher. -/
structure Outcome where
  events : List Event
  caught : Option JsVal
  result : Except JsVal Response

/-- Model of `Promise.all` over the four module loads: started together and awaited
together; if any load rejects the joined await rejects (in this deterministic
model, with the leftmost rejection). -/
def promiseAll4 {α β γ δ : Type} (a : Except JsVal α) (b : Except JsVal β)
    (c : Except JsVal γ) (d : Except JsVal δ) : Except JsVal (α × β × γ × δ) :=
  match a with
  | .error e => .error e
  | .ok x =>
    match b with
    | .error e => .error e
    | .ok y =>
      match c with
      | .error e => .error e
      | .ok z =>
        match d with
        | .error e => .error e
        | .ok w => .ok (x, y, z, w)

/-- Model of `Promise.all` over the two error-route module loads in the catch block. -/
def promiseAll2 {α β : Type} (a : Except JsVal α) (b : Except JsVal β) :
    Except JsVal (α × β) :=
  match a with
  | .error e => .error e
  | .ok x =>
    match b with
    | .error e => .error e
    | .ok y => .ok (x, y)

/-- Helper `getServerSideProps` from `src/server.tsx`:
`(await server.getServerSideProps?.(context)) ?? { props: {} }`. -/
def getServerSidePropsFn (server : PageServerModule) (ctx : ServerSideContext) :
    Except JsVal ServerSideProps :=
  match server.getServerSideProps with
  | none => .ok { props := .emptyObj }
  | some g =>
    match g ctx with
    | .error e => .error e
    | .ok o => .ok (o.getD { props := .emptyObj })

/-- Model of `getLoader` from `src/server.tsx`: the route's `loader` hook bound to the
request context, or a thunk that throws a `TypeError` naming the route key. -/
def getLoader (server : PageServerModule) (ctx : ServerSideContext) :
    List JsVal → Except JsVal JsVal :=
  match server.loader with
  | some l => fun args => l ctx args
  | none => fun _ =>
      .error (typeErrorVal ("Missing a data loader implementation: " ++ ctx.key))

/-- Model of `generateAllowHeader` from `src/server.tsx`: `GET`, plus `POST` when a
form handler exists. -/
def generateAllowHeader (server : PageServerModule) : String :=
  let allow := ["GET"]
  let allow := if server.form.isSome then allow ++ ["POST"] else allow
  String.intercalate (",") allow

/-- Model of `render` from `src/server.tsx`: redirect short-circuit (status defaulting
to 302, `location` header, absent body) or a streamed `text/html` body. -/
def render (element : Element) (initialStatus : Nat) (context : RenderContext) :
    Response :=
  let redirect := context.serverSideProps.bind (·.redirect)
  let status := context.serverSideProps.bind (·.status)
  match redirect with
  | some r =>
      { status := status.getD 302
        headers := [("location", r.url)]
        body := none }
  | none =>
      { status := status.getD initialStatus
        headers := [("content-type", "text/html")]
        body := some (.react { page := element, context }) }

/-- Model of `createPageRouter` from `src/server.tsx`: match via the external router
and look up the registered page (the source's non-null assertion on the
lookup cannot fail because the router only yields registered keys); decode
captured values; take the first match. -/
def lookupPage : List (String × ServerPage) → String → Option ServerPage
  | [], _ => none
  | (k, v) :: rest, key => if k = key then some v else lookupPage rest key

def createPageRouter (ext : Ext) (pages : List (String × ServerPage)) :
    String → Option Route := fun pathname =>
  match ext.createRouter (pages.map (·.1)) pathname with
  | none => none
  | some m =>
    match lookupPage pages m.route with
    | none => none
    | some contents =>
      some { key := m.route
             module := contents.module
             serverModule := contents.serverModule.getD (.ok {})
             scriptUrl := contents.url
             cssUrls := contents.css
             params := m.keys.zip (m.values.map (decode ext)) }

/-- The built-in `404.js` page module. -/
def notFoundPageModuleDefault : PageModule := { default := some ("NotFound") }

/-- The built-in `error.js` page module. -/
def errorPageModuleDefault : PageModule := { default := some ("Error") }

/-- The `notFoundRoute` closure of `createServer`: key `_404`, empty params;
a missing `serverModule` override resolves to `{}`. -/
def notFoundRouteOf (options : ServerOptions) : Route :=
  match options.notFound with
  | some nf =>
      { key := "_404", module := nf.module
        serverModule := nf.serverModule.getD (.ok {})
        scriptUrl := nf.url, cssUrls := nf.css, params := [] }
  | none =>
      { key := "_404", module := .ok notFoundPageModuleDefault
        serverModule := .ok {}
        scriptUrl := none, cssUrls := none, params := [] }

/-- The `errorRoute` closure of `createServer`: key `_error`; the default
falls back to `error.js` / `error.server.js`. -/
def errorRouteOf (isProd : Bool) (options : ServerOptions) : Route :=
  match options.error with
  | some e =>
      { key := "_error", module := e.module
        serverModule := e.serverModule.getD (.ok {})
        scriptUrl := e.url, cssUrls := e.css, params := [] }
  | none =>
      { key := "_error", module := .ok errorPageModuleDefault
        serverModule := .ok { getServerSideProps := some (errorGetServerSideProps isProd) }
        scriptUrl := none, cssUrls := none, params := [] }

/-- The `serverApp` closure: the app module override or the built-in
`app.js`. -/
def appModuleOf (options : ServerOptions) : Except JsVal AppModule :=
  match options.app with
  | some l => l
  | none => .ok { default := some ("App") }

/-- The `serverDocument` closure: the document module override or the built-in
`document.js`. -/
def documentModuleOf (options : ServerOptions) : Except JsVal DocumentModule :=
  match options.document with
  | some l => l
  | none => .ok { renderHead := some documentRenderHead
                  renderTail := some documentRenderTail }

/-- The `serverSideContext` built once per request inside the dispatcher. -/
def mkContext (route : Route) (request : Request) (context : JsVal) :
    ServerSideContext :=
  { key := route.key, request, params := route.params, context }

/-- Model of `Object.assign(serverSideContext, \x7b error \x7d)` in the catch
block: the context with `error` populated by the caught value. -/
def withError (ctx : ServerSideContext) (e : JsVal) : ServerSideContext :=
  { ctx with error := some e }

/-- The loader-request branch of the GET dispatch
(`request.search.get("__site__") === "1"`): parse every `data` query value
with `JSON.parse`, invoke the loader, and reply with the JSON serialization
of its result (`JSON.stringify` returning `undefined` leaves the body
absent). -/
def jsonQuoteChar (c : Char) : String :=
  if c = '\x22' then ("\\\x22")
  else if c = '\\' then ("\\\\")
  else String.singleton c

/-- Minimal executable model of `JSON.stringify` on the modelled value space
(string content beyond quote/backslash escaping is kept verbatim).  Opaque
objects and `Error` values have no enumerable own properties and serialize to
`\x7b\x7d`. -/
def jsonQuote (s : String) : String :=
  "\x22" ++ String.join (s.data.map jsonQuoteChar) ++ "\x22"

def jsonStringifyCore : JsVal → String
  | .null => "null"
  | .undef => "null"
  | .bool b => if b then ("true") else ("false")
  | .num n => toString n
  | .str s => jsonQuote s
  | .exception _ _ => "\x7b\x7d"
  | .emptyObj => "\x7b\x7d"
  | .obj _ => "\x7b\x7d"
  | .objStatus s sc =>
      let fields :=
        (match s with | some n => ["\x22status\x22:" ++ toString n] | none => []) ++
        (match sc with | some n => ["\x22statusCode\x22:" ++ toString n] | none => [])
      "\x7b" ++ String.intercalate (",") fields ++ "\x7d"
  | .errorProps status stack =>
      "\x7b\x22status\x22:" ++ toString status ++
        (match stack with
         | none => ""
         | some st => ",\x22stack\x22:" ++ jsonQuote st) ++ "\x7d"

/-- Model of `JSON.stringify` at top level: `undefined` input yields `undefined` (no
string), anything else a string. -/
def jsonStringifyTop : JsVal → Option String
  | .undef => none
  | v => some (jsonStringifyCore v)

/-- Left-to-right mapping of a throwing function over a list
(`array.map(x => JSON.parse(x))` with a throw aborting the whole
expression). -/
def mapExcept (f : String → Except JsVal JsVal) :
    List String → Except JsVal (List JsVal)
  | [] => .ok []
  | x :: xs =>
    match f x with
    | .error e => .error e
    | .ok v =>
      match mapExcept f xs with
      | .error e => .error e
      | .ok vs => .ok (v :: vs)

def dispatchLoader (ext : Ext) (loader : List JsVal → Except JsVal JsVal)
    (request : Request) : Outcome :=
  match mapExcept ext.jsonParse (request.search.getAll ("data")) with
  | .error e => { events := [], caught := none, result := .error e }
  | .ok args =>
    match loader args with
    | .error e => { events := [.loaderInvoke], caught := none, result := .error e }
    | .ok data =>
        { events := [.loaderInvoke], caught := none
          result := .ok { status := 200
                          headers := [("content-type", "application/json")]
                          body := (jsonStringifyTop data).map ResBody.str } }

/-- The GET branch and the 405 fall-through of the dispatch policy (reached
when the POST-with-form branch did not return). -/
def dispatchGetOr405 (ext : Ext) (route : Route) (server : PageServerModule)
    (appName comp : String) (renderHead : HeadOptions → String)
    (renderTail : TailOptions → String) (ctx : ServerSideContext)
    (loader : List JsVal → Except JsVal JsVal) (request : Request) : Outcome :=
  if request.method = "GET" then
    if request.search.get ("__site__") = some ("1") then
      dispatchLoader ext loader request
    else
      match getServerSidePropsFn server ctx with
      | .error e => { events := [.gsspInvoke], caught := none, result := .error e }
      | .ok sps =>
          { events := [.gsspInvoke], caught := none
            result := .ok (render (.app appName (.comp comp)) 200
              { route, serverSideProps := some sps, loader
                formData := none, renderHead, renderTail }) }
  else
    { events := [], caught := none
      result := .ok { status := 405
                      headers := [("allow", generateAllowHeader server)]
                      body := none } }

/-- The body of the dispatcher's `try` block: the not-found branch, the
POST-with-form branch, the GET branch and the 405 fall-through, in source
order. -/
def dispatchTry (ext : Ext) (isNotFoundRoute : Bool) (route : Route)
    (page : PageModule) (server : PageServerModule) (app : AppModule)
    (renderHead : HeadOptions → String) (renderTail : TailOptions → String)
    (ctx : ServerSideContext) (loader : List JsVal → Except JsVal JsVal)
    (request : Request) : Outcome :=
  match page.default with
  | none =>
      { events := [], caught := none
        result := .error (typeErrorVal
          ("The page for \x22" ++ route.key ++ "\x22 module is missing a default export")) }
  | some comp =>
    if isNotFoundRoute then
      if request.method = "GET" then
        match getServerSidePropsFn server ctx with
        | .error e => { events := [.gsspInvoke], caught := none, result := .error e }
        | .ok sps =>
            { events := [.gsspInvoke], caught := none
              result := .ok (render (.comp comp) 404
                { route, serverSideProps := some sps, loader
                  formData := none, renderHead, renderTail }) }
      else
        { events := [], caught := none
          result := .ok { status := 404, headers := [], body := none } }
    else
      match app.default with
      | none =>
          { events := [], caught := none
            result := .error (typeErrorVal ("The \x22_app\x22 module is missing a default export")) }
      | some appName =>
        match server.form with
        | some f =>
          if request.method = "POST" then
            if request.type = RequestType.FORM then
              match f ctx with
              | .error e => { events := [.formInvoke], caught := none, result := .error e }
              | .ok formData =>
                match getServerSidePropsFn server ctx with
                | .error e =>
                    { events := [.formInvoke, .gsspInvoke], caught := none
                      result := .error e }
                | .ok sps =>
                    { events := [.formInvoke, .gsspInvoke], caught := none
                      result := .ok (render (.app appName (.comp comp)) 200
                        { route, serverSideProps := some sps, loader
                          formData := some formData, renderHead, renderTail }) }
            else
              { events := [], caught := none
                result := .ok { status := 415, headers := [], body := none } }
          else
            dispatchGetOr405 ext route server appName comp renderHead renderTail ctx loader request
        | none =>
            dispatchGetOr405 ext route server appName comp renderHead renderTail ctx loader request

/-- The dispatcher's `catch` block: load the error route's modules, require
the error page's default export (the message interpolates the *original*
route key, as in the source), run its `getServerSideProps` with
`context.error` assigned to the caught value, and render the error page
standalone with initial status 500.  Any rejection here escapes. -/
def recover (isProd : Bool) (options : ServerOptions) (route : Route)
    (renderHead : HeadOptions → String) (renderTail : TailOptions → String)
    (ctx : ServerSideContext) (loader : List JsVal → Except JsVal JsVal)
    (error : JsVal) : Outcome :=
  let errorRoute := errorRouteOf isProd options
  match promiseAll2 errorRoute.module errorRoute.serverModule with
  | .error e => { events := [.recoveryEnter], caught := some error, result := .error e }
  | .ok (page, server) =>
    match page.default with
    | none =>
        { events := [.recoveryEnter], caught := some error
          result := .error (typeErrorVal
            ("The page for \x22" ++ route.key ++ "\x22 module is missing a default export")) }
    | some comp =>
      match getServerSidePropsFn server (withError ctx error) with
      | .error e =>
          { events := [.recoveryEnter, .gsspInvoke], caught := some error
            result := .error e }
      | .ok sps =>
          { events := [.recoveryEnter, .gsspInvoke], caught := some error
            result := .ok (render (.comp comp) 500
              { route, serverSideProps := some sps, loader
                formData := none, renderHead, renderTail }) }

/-- The request handler returned by `createServer` in `src/server.tsx`:
strip the leading slash, route with not-found fallback, await the four module
loads together (*before* the `try` block — a rejection here escapes), require
the document exports, then run the `try` body with the `catch` recovery. -/
def serverHandler (isProd : Bool) (ext : Ext) (options : ServerOptions)
    (request : Request) (context : JsVal) : Outcome :=
  let pathname := request.pathname.drop 1
  let matched := createPageRouter ext options.pages pathname
  let route := matched.getD (notFoundRouteOf options)
  match promiseAll4 route.module route.serverModule
      (appModuleOf options) (documentModuleOf options) with
  | .error e => { events := [], caught := none, result := .error e }
  | .ok (page, server, app, document) =>
    match document.renderHead with
    | none =>
        { events := [], caught := none
          result := .error (typeErrorVal
            "The \x22_document\x22 module is missing the \x22renderHead\x22 export") }
    | some renderHead =>
      match document.renderTail with
      | none =>
          { events := [], caught := none
            result := .error (typeErrorVal
              "The \x22_document\x22 module is missing the \x22renderTail\x22 export") }
      | some renderTail =>
        let ctx := mkContext route request context
        let loader := getLoader server ctx
        let inner := dispatchTry ext matched.isNone route page server app
          renderHead renderTail ctx loader request
        match inner.result with
        | .ok _ => inner
        | .error err =>
          let rec_ := recover isProd options route renderHead renderTail ctx loader err
          { events := inner.events ++ rec_.events, caught := rec_.caught
            result := rec_.result }

/-- Model of `createServer` from `src/server.tsx`. -/
def createServer (isProd : Bool) (ext : Ext) (options : ServerOptions) :
    Request → JsVal → Outcome :=
  serverHandler isProd ext options

/-! ### The node transport adapter (`src/adapters/node.ts`)

Only the method/type computation of `fromNodeRequest` is needed here: the
method is uppercased (defaulting to GET) by the *adapter*, and the request is
classified as a form submission when the content-type matches
`/^application\/x-www-form-urlencoded(?:;|$)/i`. -/

/-- Case-insensitive character comparison (ASCII lowering, as the `i` regex
flag behaves on these patterns). -/
def ciEq (a b : Char) : Bool := a.toLower = b.toLower

/-- Whether the pattern (first argument) case-insensitively starts the
character list (second argument). -/
def startsWithCI : List Char → List Char → Bool
  | [], _ => true
  | _ :: _, [] => false
  | p :: ps, c :: cs => ciEq c p && startsWithCI ps cs

/-- Whether a content-type matches the form-submission regex
`/^application\/x-www-form-urlencoded(?:;|$)/i`: the literal prefix
(case-insensitive) followed by a semicolon or the end of the string. -/
def matchesFormContentType (s : String) : Bool :=
  let pat := "application/x-www-form-urlencoded".data
  startsWithCI pat s.data &&
    (match s.data.drop pat.length with
     | [] => true
     | c :: _ => c = ';')

/-- Character-wise ASCII uppercasing, as `toUpperCase` behaves on method
names. -/
def toUpperStr (s : String) : String := ⟨s.data.map Char.toUpper⟩

/-- Method and type computation of `fromNodeRequest`: uppercase the method
(defaulting to GET when absent) and classify the body by content-type. -/
def fromNodeRequestMethod (method : Option String) : String :=
  toUpperStr (method.getD ("GET"))

def fromNodeRequestType (contentType : Option String) : RequestType :=
  if matchesFormContentType (contentType.getD ("")) then RequestType.FORM
  else RequestType.UNKNOWN

/-! ### Hydration script escaping (`stringifyForScript`)

The source escapes the serialized page data with
`JSON.stringify(data).replace(/\<(!--|script|\/script)/gi, "<\\$1")`:
a global, case-insensitive, left-to-right scan replacing each match
`<` + (`!--` | `script` | `/script`) by `<\` + the matched tail. -/

/-- First alternative of the regex group: `!--`. -/
def PAT_BANG : List Char := ['!', '-', '-']

/-- Second alternative of the regex group: `script`. -/
def PAT_SCRIPT : List Char := ['s', 'c', 'r', 'i', 'p', 't']

/-- Third alternative of the regex group: `/script`. -/
def PAT_CSCRIPT : List Char := ['/', 's', 'c', 'r', 'i', 'p', 't']

/-- The alternation of the regex, in source order; the result is the length of
the matched group when one of the three alternatives matches here. -/
def matchLen (cs : List Char) : Option Nat :=
  if startsWithCI PAT_BANG cs then some 3
  else if startsWithCI PAT_SCRIPT cs then some 6
  else if startsWithCI PAT_CSCRIPT cs then some 7
  else none

/-- The global regex replace: at each `<` that begins a match, emit `<\` and
the matched group verbatim, resuming the scan after the match (regex matches
are non-overlapping). -/
def scriptReplaceAux (l : List Char) : List Char :=
  match l with
  | [] => []
  | c :: rest =>
    if c = '<' then
      match matchLen rest with
      | some n => '<' :: '\\' :: (rest.take n ++ scriptReplaceAux (rest.drop n))
      | none => '<' :: scriptReplaceAux rest
    else c :: scriptReplaceAux rest
termination_by l.length
decreasing_by
  all_goals simp [List.length_drop]
  all_goals omega

/-- String form of the replace in `stringifyForScript`. -/
def scriptReplace (s : String) : String := ⟨scriptReplaceAux s.data⟩

/-- Whether a position opens one of the dangerous sequences: a `<`
followed (case-insensitively) by `!--`, `script` or `/script` — i.e. an
unescaped HTML comment opener, script-tag opener or script-tag closer. -/
def containsBadScript : List Char → Bool
  | [] => false
  | c :: rest => (c = '<' && (matchLen rest).isSome) || containsBadScript rest

/-- Model of `PageData` from `src/shared.tsx`: the serialized page payload. -/
structure PageData where
  props : JsVal
  formData : Option JsVal
  deriving DecidableEq, Repr

/-- Serialization of the page data object by `JSON.stringify` (a `formData`
of `undefined` is omitted from the output, as `JSON.stringify` drops
`undefined`-valued properties). -/
def jsonStringifyPageData (pd : PageData) : String :=
  "\x7b\x22props\x22:" ++ jsonStringifyCore pd.props ++
    (match pd.formData with
     | none => ""
     | some f => ",\x22formData\x22:" ++ jsonStringifyCore f) ++ "\x7d"

/-- Model of `stringifyForScript` from `src/server.tsx`. -/
def stringifyForScript (pd : PageData) : String :=
  scriptReplace (jsonStringifyPageData pd)

/-- The page data assembled by `ReactBody.getApp`:
`props := serverSideProps?.props ?? \x7b\x7d` and the form data. -/
def ReactBody.pageData (b : ReactBody) : PageData :=
  { props := (b.context.serverSideProps.map (·.props)).getD .emptyObj
    formData := b.context.formData }

/-- The `bootstrapScriptContent` handed to the React renderer by
`ReactBody.getApp`: present exactly when the route carries a client script
URL. -/
def ReactBody.bootstrapScriptContent (b : ReactBody) : Option String :=
  match b.context.route.scriptUrl with
  | some _ =>
      some ("window." ++ GLOBAL_PAGE_DATA ++ "=" ++ stringifyForScript b.pageData)
  | none => none

/-! ### Composed stream forms (`ReactBody.readableStream` / `nodeStream`)

`readableStream` chains promises:
`write(prefix()) .then(pipeTo(content, preventClose)) .then(write(suffix())
.then(close))`; `nodeStream` writes the prefix into a `PassThrough` whose
`flush` callback appends the suffix at stream finalization, then pipes the
content into it.  The models below replay those sequencing structures as
compositions over an ordered write log.  The content stream is the chunk
sequence the external React stream produced before closing; per the React
contract an aborted render still closes its stream after the chunks it did
emit, which the `aborted` flag records. -/

/-- The chunk sequence produced by the underlying React render stream. -/
structure ContentStream where
  chunks : List String
  aborted : Bool
  deriving DecidableEq, Repr

/-- One observable action on the composed output stream. -/
inductive WriteEvent where
  | chunk (s : String)
  | close
  deriving DecidableEq, Repr

/-- A single `writer.write` on the composing stream. -/
def wWrite (s : String) (log : List WriteEvent) : List WriteEvent :=
  log ++ [.chunk s]

/-- Closing the composing stream. -/
def wClose (log : List WriteEvent) : List WriteEvent :=
  log ++ [.close]

/-- `stream.pipeTo(writable, \x7b preventClose: true \x7d)`: every chunk of the
content stream is written, in order, and the writable is left open. -/
def pipeToLog (c : ContentStream) (log : List WriteEvent) : List WriteEvent :=
  log ++ c.chunks.map .chunk

/-- The write log of `ReactBody.readableStream`: the promise chain runs the
prefix write, then the piping, then the suffix write, then the close — each
step starting only after the previous one resolved. -/
def readableStreamWrites (pre suf : String) (content : ContentStream) :
    List WriteEvent :=
  wClose (wWrite suf (pipeToLog content (wWrite pre [])))

/-- The write log of `ReactBody.nodeStream`: the prefix is written into the
`PassThrough` before the pipe starts, the content is piped through, and the
`flush` callback emits the suffix when the proxy finalizes — also when the
source ended early after an abort. -/
def nodeStreamWrites (pre suf : String) (content : ContentStream) :
    List WriteEvent :=
  wClose (wWrite suf (pipeToLog content (wWrite pre [])))

end Site

namespace SiteV1

/-! ### The earlier server revision

This embeds the earlier `src/server.tsx` revision (the one exposing
`onSubmit`/`onRequest` hooks and the `waitForAllReady` stream option), which
claims about the allow-header derivation and the `waitForAllReady` semantics
reference. -/

open Site (JsVal ServerSideContext ServerSideProps)

/-- Model of `PageServerModule` of the earlier revision: `getServerSideProps`,
an `onSubmit` form handler, and a record of per-method `onRequest` handlers.
Only the record's key list (insertion-ordered, as `Object.keys` yields it) is
consulted by the allow-header computation, so handler values are opaque. -/
structure PageServerModule where
  getServerSideProps : Option (ServerSideContext → Except JsVal (Option ServerSideProps)) := none
  onSubmit : Option (ServerSideContext → Except JsVal JsVal) := none
  onRequest : Option (List String) := none

/-- Insertion into a JavaScript `Set`: append when not already present. -/
def insertUnique (l : List String) (x : String) : List String :=
  if x ∈ l then l else l ++ [x]

/-- The allow list built by the earlier `generateAllowHeader`:
`new Set(["GET"])`, add `POST` when an `onSubmit` handler exists, then add
every `onRequest` key (when `onRequest` is an object); `Array.from`
preserves insertion order. -/
def allowList (server : PageServerModule) : List String :=
  let allow := ["GET"]
  let allow := if server.onSubmit.isSome then insertUnique allow ("POST") else allow
  match server.onRequest with
  | some keys => keys.foldl insertUnique allow
  | none => allow

/-- Model of `generateAllowHeader` of the earlier revision. -/
def generateAllowHeader (server : PageServerModule) : String :=
  String.intercalate (",") (allowList server)

/-! ### The `waitForAllReady` stream option

`rawNodeStream` registers `onShellReady`/`onAllReady` callbacks with the
React renderer; `rawReadableStream` awaits the stream and then, when
`waitForAllReady` is set, `stream.allReady`.  The renderer (the external
collaborator) fires shell-ready and then all-ready; the models below compute
when the body-acquisition promise resolves on such a timeline. -/

/-- Lifecycle events fired by the external React pipeable renderer. -/
inductive LifecycleEvent where
  | shellReady
  | allReady
  deriving DecidableEq, Repr

/-- Which lifecycle callback of `rawNodeStream` resolves the returned
promise: `onShellReady` resolves unless `waitForAllReady` is set (in which
case no `onShellReady` callback is registered at all), and `onAllReady`
resolves exactly when `waitForAllReady` is set. -/
def rawNodeStreamResolves (waitForAllReady : Bool) : LifecycleEvent → Bool
  | .shellReady => !waitForAllReady
  | .allReady => waitForAllReady

/-- A render timeline: the instants at which the renderer signals that the
synchronous shell is ready and that the entire tree (including suspended
subtrees) has finished. -/
structure RenderTimeline where
  shellAt : Nat
  allAt : Nat
  deriving DecidableEq, Repr

/-- The instant at which the promise returned by `rawNodeStream` resolves:
the renderer fires shell-ready at `shellAt` and all-ready at `allAt`, and the
promise resolves at the first event whose callback resolves it. -/
def rawNodeStreamResolveAt (waitForAllReady : Bool) (tl : RenderTimeline) :
    Option Nat :=
  if rawNodeStreamResolves waitForAllReady .shellReady then some tl.shellAt
  else if rawNodeStreamResolves waitForAllReady .allReady then some tl.allAt
  else none

/-- The instant at which `rawReadableStream` returns: the awaited
`renderToReadableStream` promise resolves at shell-ready, and when
`waitForAllReady` is set the function additionally awaits `stream.allReady`
before returning. -/
def rawReadableStreamResolveAt (waitForAllReady : Bool) (tl : RenderTimeline) :
    Nat :=
  if waitForAllReady then max tl.shellAt tl.allAt else tl.shellAt

/-- Model of `nodeStream`, which begins by `await this.rawNodeStream(options)`
with the caller's options forwarded unchanged. -/
def nodeStreamResolveAt (waitForAllReady : Bool) (tl : RenderTimeline) :
    Option Nat :=
  rawNodeStreamResolveAt waitForAllReady tl

/-- Model of `readableStream`, which begins by
`await this.rawReadableStream(options)` with the caller's options forwarded
unchanged. -/
def readableStreamResolveAt (waitForAllReady : Bool) (tl : RenderTimeline) :
    Nat :=
  rawReadableStreamResolveAt waitForAllReady tl

end SiteV1

namespace Site

/-! ### Concrete fixtures used by witnesses and counterexamples -/

/-- A trivial external-collaborator bundle: the router matches a pathname
that is exactly a registered key (no parameters), decoding is the identity,
and JSON parsing yields null. -/
def extTrivial : Ext :=
  { createRouter := fun keys pathname =>
      if pathname ∈ keys then some { route := pathname, keys := [], values := [] }
      else none
    decodeURIComponent := fun s => .ok s
    jsonParse := fun _ => .ok .null }

/-- A generic rejection value. -/
def boomVal : JsVal := .exception ("Error") ("boom")

/-- A second, distinguishable rejection value. -/
def boom2Val : JsVal := .exception ("Error") ("boom2")

/-- A plain page view module with a default export. -/
def pageModuleOk : PageModule := { default := some ("Page") }

/-- Server-side props carrying a redirect with an explicit status. -/
def spsRedirect : ServerSideProps :=
  { props := .emptyObj, status := some 301, redirect := some { url := "/x" } }

/-- A server-logic module whose data-loading hook returns a redirect. -/
def serverModRedirect : PageServerModule :=
  { getServerSideProps := some (fun _ => .ok (some spsRedirect)) }

/-- A page registered with the redirecting hook. -/
def pageRedirect : ServerPage :=
  { module := .ok pageModuleOk, serverModule := some (.ok serverModRedirect) }

/-- Server options registering only the redirecting page. -/
def optionsRedirect : ServerOptions := { pages := [("index", pageRedirect)] }

/-- A plain GET request for `/index`. -/
def reqGetIndex : Request :=
  { method := "GET", type := .UNKNOWN, pathname := "/index", search := ⟨[]⟩ }

/-- The route value the trivial router yields for `/index` over the
redirecting page table. -/
def routeRedirect : Route :=
  { key := "index", module := .ok pageModuleOk
    serverModule := .ok serverModRedirect
    scriptUrl := none, cssUrls := none, params := [] }

/-- A page whose view-module load rejects. -/
def pageBadLoad : ServerPage := { module := .error boomVal }

/-- Options registering only the page with the rejecting view-module load. -/
def optionsBadLoad : ServerOptions := { pages := [("index", pageBadLoad)] }

/-- A page whose server-logic-module load rejects. -/
def pageBadServerLoad : ServerPage :=
  { module := .ok pageModuleOk, serverModule := some (.error boom2Val) }

/-- Options registering only the page with the rejecting server-logic
load. -/
def optionsBadServerLoad : ServerOptions :=
  { pages := [("index", pageBadServerLoad)] }

/-- A server-logic module whose data-loading hook throws. -/
def serverModThrow : PageServerModule :=
  { getServerSideProps := some (fun _ => .error boomVal) }

/-- A page registered with the throwing hook. -/
def pageThrow : ServerPage :=
  { module := .ok pageModuleOk, serverModule := some (.ok serverModThrow) }

/-- Options registering only the throwing page (default error page). -/
def optionsThrow : ServerOptions := { pages := [("index", pageThrow)] }

/-- The route value for `/index` over the throwing page table. -/
def routeThrow : Route :=
  { key := "index", module := .ok pageModuleOk
    serverModule := .ok serverModThrow
    scriptUrl := none, cssUrls := none, params := [] }

/-- The server-side props the default error page hook produces for a thrown
`boomVal` in development mode. -/
def spsErrorBoom : ServerSideProps :=
  { props := .errorProps 500 (some ("Error: boom")), status := some 500
    redirect := none }

/-- Options whose page hook throws and whose custom error page's module load
itself rejects. -/
def optionsThrowBadError : ServerOptions :=
  { pages := [("index", pageThrow)]
    error := some { module := .error boom2Val } }

/-- A page with no server-logic module at all. -/
def pagePlain : ServerPage := { module := .ok pageModuleOk }

/-- Options registering only the plain page. -/
def optionsPlain : ServerOptions := { pages := [("index", pagePlain)] }

/-- The route value for `/index` over the plain page table. -/
def routePlain : Route :=
  { key := "index", module := .ok pageModuleOk, serverModule := .ok {}
    scriptUrl := none, cssUrls := none, params := [] }

/-- A DELETE request for `/index`. -/
def reqDeleteIndex : Request :=
  { method := "DELETE", type := .UNKNOWN, pathname := "/index", search := ⟨[]⟩ }

/-- A request identical to `reqGetIndex` except that its method is the
lowercase `get`. -/
def reqLowerGet : Request :=
  { method := "get", type := .UNKNOWN, pathname := "/index", search := ⟨[]⟩ }

/-- A GET request for an unregistered pathname. -/
def reqGetMissing : Request :=
  { method := "GET", type := .UNKNOWN, pathname := "/missing", search := ⟨[]⟩ }

/-- A DELETE request for an unregistered pathname. -/
def reqDeleteMissing : Request :=
  { method := "DELETE", type := .UNKNOWN, pathname := "/missing", search := ⟨[]⟩ }

/-- The object a concrete form handler produces. -/
def formDataVal : JsVal := .obj ("form")

/-- A server-logic module exposing only a form handler. -/
def serverModForm : PageServerModule :=
  { form := some (fun _ => .ok formDataVal) }

/-- A page registered with the form handler. -/
def pageForm : ServerPage :=
  { module := .ok pageModuleOk, serverModule := some (.ok serverModForm) }

/-- Options registering only the form page. -/
def optionsForm : ServerOptions := { pages := [("index", pageForm)] }

/-- The route value for `/index` over the form page table. -/
def routeForm : Route :=
  { key := "index", module := .ok pageModuleOk
    serverModule := .ok serverModForm
    scriptUrl := none, cssUrls := none, params := [] }

/-- A form-encoded POST request for `/index`. -/
def reqPostForm : Request :=
  { method := "POST", type := .FORM, pathname := "/index", search := ⟨[]⟩ }

/-- A POST request for `/index` whose content-type is not form encoding. -/
def reqPostNotForm : Request :=
  { method := "POST", type := .UNKNOWN, pathname := "/index", search := ⟨[]⟩ }

/-- A server-logic module exposing only a loader. -/
def serverModLoader : PageServerModule :=
  { loader := some (fun _ _ => .ok (.num 42)) }

/-- A page registered with the loader. -/
def pageLoader : ServerPage :=
  { module := .ok pageModuleOk, serverModule := some (.ok serverModLoader) }

/-- Options registering only the loader page. -/
def optionsLoader : ServerOptions := { pages := [("index", pageLoader)] }

/-- The route value for `/index` over the loader page table. -/
def routeLoader : Route :=
  { key := "index", module := .ok pageModuleOk
    serverModule := .ok serverModLoader
    scriptUrl := none, cssUrls := none, params := [] }

/-- A GET request for `/index` carrying `__site__=1`. -/
def reqGetSite : Request :=
  { method := "GET", type := .UNKNOWN, pathname := "/index"
    search := ⟨[("__site__", "1")]⟩ }

/-- The server-side props the default error page hook produces for the
missing-loader `TypeError` in development mode. -/
def spsErrorLoader : ServerSideProps :=
  { props := .errorProps 500
      (some ("TypeError: Missing a data loader implementation: index"))
    status := some 500, redirect := none }

/-! ## Helper lemmas for the hydration-script escaping -/

/-- Unfolding lemma: escaping the empty string. -/
theorem scriptReplaceAux_nil : scriptReplaceAux [] = [] := by
  rw [scriptReplaceAux]

/-- Unfolding lemma: a non-`<` head is copied. -/
theorem scriptReplaceAux_cons_ne (c : Char) (rest : List Char) (hc : c ≠ '<') :
    scriptReplaceAux (c :: rest) = c :: scriptReplaceAux rest := by
  rw [scriptReplaceAux]
  simp [hc]

/-- Unfolding lemma: a `<` that opens no match is copied. -/
theorem scriptReplaceAux_lt_none (rest : List Char) (h : matchLen rest = none) :
    scriptReplaceAux ('<' :: rest) = '<' :: scriptReplaceAux rest := by
  rw [scriptReplaceAux]
  simp [h]

/-- Unfolding lemma: a `<` that opens a match is escaped with a backslash and
the matched group is copied verbatim, the scan resuming after it. -/
theorem scriptReplaceAux_lt_some (rest : List Char) (n : Nat)
    (h : matchLen rest = some n) :
    scriptReplaceAux ('<' :: rest) =
      '<' :: '\\' :: (rest.take n ++ scriptReplaceAux (rest.drop n)) := by
  rw [scriptReplaceAux]
  simp [h]

/-- A case-insensitive match against a pattern without `<` pins every matched
character away from `<`. -/
theorem no_lt_of_startsWithCI (pat : List Char) :
    ∀ (cs : List Char), startsWithCI pat cs = true →
      (∀ p ∈ pat, p.toLower ≠ '<') → ∀ c ∈ cs.take pat.length, c ≠ '<' := by
  induction pat with
  | nil => intro cs _ _ c hc; simp at hc
  | cons p ps ih =>
    intro cs h hp c hc
    match cs with
    | [] => simp [startsWithCI] at h
    | d :: ds =>
      simp only [startsWithCI, Bool.and_eq_true] at h
      obtain ⟨h1, h2⟩ := h
      simp only [List.length_cons, List.take_succ_cons, List.mem_cons] at hc
      rcases hc with rfl | hc
      · intro heq
        subst heq
        have hlow : ('<').toLower = '<' := by decide
        have : ('<').toLower = p.toLower := by
          simpa [ciEq] using h1
        exact hp p (List.mem_cons_self _ _) (by rw [← this, hlow])
      · exact ih ds h2 (fun q hq => hp q (List.mem_cons_of_mem _ hq)) c hc

/-- The span matched by the regex group contains no `<`. -/
theorem take_no_lt_of_matchLen (cs : List Char) (n : Nat)
    (h : matchLen cs = some n) : ∀ c ∈ cs.take n, c ≠ '<' := by
  unfold matchLen at h
  split_ifs at h with h1 h2 h3 <;> simp only [Option.some.injEq] at h
  · subst h
    exact no_lt_of_startsWithCI PAT_BANG cs h1 (by decide)
  · subst h
    exact no_lt_of_startsWithCI PAT_SCRIPT cs h2 (by decide)
  · subst h
    exact no_lt_of_startsWithCI PAT_CSCRIPT cs h3 (by decide)

/-- Scanning past characters that are not `<` finds nothing dangerous. -/
theorem containsBadScript_append (xs ys : List Char)
    (h : ∀ c ∈ xs, c ≠ '<') :
    containsBadScript (xs ++ ys) = containsBadScript ys := by
  induction xs with
  | nil => simp
  | cons x xs ih =>
    have hx : x ≠ '<' := h x (List.mem_cons_self _ _)
    simp only [List.cons_append, containsBadScript, hx, decide_False,
      Bool.false_and, Bool.false_or]
    exact ih (fun c hc => h c (List.mem_cons_of_mem _ hc))

/-- Escaping never changes whether a pattern (without `<` or `\`) matches at
the head: the replacement only rewrites at `<`, which no such pattern can
start with. -/
theorem startsWithCI_scriptReplaceAux (pat : List Char)
    (hp : ∀ p ∈ pat, p.toLower ≠ '<') :
    ∀ l, startsWithCI pat (scriptReplaceAux l) = startsWithCI pat l := by
  induction pat with
  | nil => intro l; simp [startsWithCI]
  | cons p ps ih =>
    intro l
    match l with
    | [] => rw [scriptReplaceAux_nil]
    | c :: rest =>
      by_cases hc : c = '<'
      · subst hc
        have hciq : ciEq '<' p = false := by
          simp only [ciEq, decide_eq_false_iff_not]
          intro heq
          exact hp p (List.mem_cons_self _ _) (by rw [← heq]; decide)
        cases hml : matchLen rest with
        | none =>
          rw [scriptReplaceAux_lt_none rest hml]
          simp [startsWithCI, hciq]
        | some n =>
          rw [scriptReplaceAux_lt_some rest n hml]
          simp [startsWithCI, hciq]
      · rw [scriptReplaceAux_cons_ne c rest hc]
        simp only [startsWithCI]
        rw [ih (fun q hq => hp q (List.mem_cons_of_mem _ hq)) rest]

/-- Escaping never changes whether the regex group matches at the head. -/
theorem matchLen_scriptReplaceAux (l : List Char) :
    matchLen (scriptReplaceAux l) = matchLen l := by
  unfold matchLen
  rw [startsWithCI_scriptReplaceAux PAT_BANG (by decide) l,
    startsWithCI_scriptReplaceAux PAT_SCRIPT (by decide) l,
    startsWithCI_scriptReplaceAux PAT_CSCRIPT (by decide) l]

/-- No pattern of the regex group matches right after the inserted
backslash. -/
theorem matchLen_backslash (mid : List Char) : matchLen ('\\' :: mid) = none := by
  unfold matchLen
  rw [show startsWithCI PAT_BANG ('\\' :: mid) = false by
      simp [PAT_BANG, startsWithCI, show ciEq '\\' '!' = false by decide],
    show startsWithCI PAT_SCRIPT ('\\' :: mid) = false by
      simp [PAT_SCRIPT, startsWithCI, show ciEq '\\' 's' = false by decide],
    show startsWithCI PAT_CSCRIPT ('\\' :: mid) = false by
      simp [PAT_CSCRIPT, startsWithCI, show ciEq '\\' '/' = false by decide]]
  simp

/-- Main escaping invariant, by strong induction on the input length: the
output of the global replace contains no unescaped occurrence of the three
dangerous sequences. -/
theorem containsBadScript_scriptReplaceAux_of_le :
    ∀ (n : Nat) (l : List Char), l.length ≤ n →
      containsBadScript (scriptReplaceAux l) = false := by
  intro n
  induction n with
  | zero =>
    intro l hl
    have : l = [] := List.eq_nil_of_length_eq_zero (Nat.le_zero.mp hl)
    subst this
    rw [scriptReplaceAux_nil]
    rfl
  | succ n ih =>
    intro l hl
    match l with
    | [] =>
      rw [scriptReplaceAux_nil]
      rfl
    | c :: rest =>
      simp only [List.length_cons, Nat.succ_le_succ_iff] at hl
      by_cases hc : c = '<'
      · subst hc
        cases hml : matchLen rest with
        | none =>
          rw [scriptReplaceAux_lt_none rest hml]
          simp only [containsBadScript, matchLen_scriptReplaceAux, hml,
            Option.isSome_none, Bool.and_false, Bool.false_or]
          exact ih rest hl
        | some m =>
          rw [scriptReplaceAux_lt_some rest m hml]
          simp only [containsBadScript, matchLen_backslash,
            Option.isSome_none, Bool.and_false, Bool.false_or,
            show (decide ('\\' = '<')) = false by decide, Bool.false_and]
          rw [containsBadScript_append (rest.take m)
            (scriptReplaceAux (rest.drop m))
            (take_no_lt_of_matchLen rest m hml)]
          have hdrop : (rest.drop m).length ≤ n := by
            rw [List.length_drop]
            omega
          exact ih (rest.drop m) hdrop
      · rw [scriptReplaceAux_cons_ne c rest hc]
        simp only [containsBadScript, hc, decide_False, Bool.false_and,
          Bool.false_or]
        exact ih rest hl

/-- Escaped output never contains an unescaped dangerous sequence. -/
theorem containsBadScript_scriptReplaceAux (l : List Char) :
    containsBadScript (scriptReplaceAux l) = false :=
  containsBadScript_scriptReplaceAux_of_le l.length l le_rfl

end Site

namespace Site

/-! ## Claim theorems -/

/-- C4: for every page-data value, the hydration bootstrap script content
embeds the JSON serialization with every occurrence of the dangerous
sequences rewritten to an escaped form: the escaped serialization — and the
whole bootstrap script content built from it — contains no unescaped
`<!--`, `<script` or `</script` (case-insensitive), whatever literal
substrings appear inside the serialized data; and `getApp` builds the
bootstrap content exactly as the escaped serialization of the page data
behind the `window.__SITE_DATA__=` prefix. -/
theorem C4_bootstrap_script_escaped :
    (∀ s : String, containsBadScript (scriptReplace s).data = false) ∧
    (∀ s : String,
      containsBadScript
        ("window." ++ GLOBAL_PAGE_DATA ++ "=" ++ scriptReplace s).data = false) ∧
    (∀ b : ReactBody,
      b.bootstrapScriptContent = b.context.route.scriptUrl.map (fun _ =>
        "window." ++ GLOBAL_PAGE_DATA ++ "=" ++
          scriptReplace (jsonStringifyPageData b.pageData))) := by
  refine ⟨?_, ?_, ?_⟩
  · intro s
    exact containsBadScript_scriptReplaceAux s.data
  · intro s
    have hsplit :
        ("window." ++ GLOBAL_PAGE_DATA ++ "=" ++ scriptReplace s).data =
          "window.__SITE_DATA__=".data ++ (scriptReplace s).data := rfl
    rw [hsplit, containsBadScript_append _ _ (by decide)]
    exact containsBadScript_scriptReplaceAux s.data
  · intro b
    cases h : b.context.route.scriptUrl with
    | none => simp [ReactBody.bootstrapScriptContent, stringifyForScript, h]
    | some u => simp [ReactBody.bootstrapScriptContent, stringifyForScript, h]

/-- C2: whenever the resolved server-side props carry a redirect, the
response is the redirect response — the hook's status (302 by default), a
`location` header equal to the redirect URL, and an absent body; no view
body is produced.  Stated for the `render` step (every dispatch path goes
through it) and for the full dispatcher on the plain GET path. -/
theorem C2_redirect_short_circuit :
    (∀ (element : Element) (initialStatus : Nat) (rctx : RenderContext)
      (r : Redirect),
      rctx.serverSideProps.bind (·.redirect) = some r →
      render element initialStatus rctx =
        { status := (rctx.serverSideProps.bind (·.status)).getD 302
          headers := [("location", r.url)]
          body := none }) ∧
    (∀ (isProd : Bool) (ext : Ext) (options : ServerOptions)
      (request : Request) (context : JsVal) (route : Route)
      (page : PageModule) (server : PageServerModule) (app : AppModule)
      (document : DocumentModule) (rh : HeadOptions → String)
      (rt : TailOptions → String) (comp appName : String)
      (sps : ServerSideProps) (r : Redirect),
      createPageRouter ext options.pages (request.pathname.drop 1) = some route →
      route.module = .ok page →
      route.serverModule = .ok server →
      appModuleOf options = .ok app →
      documentModuleOf options = .ok document →
      document.renderHead = some rh →
      document.renderTail = some rt →
      page.default = some comp →
      app.default = some appName →
      server.form = none →
      request.method = "GET" →
      request.search.get ("__site__") ≠ some ("1") →
      getServerSidePropsFn server (mkContext route request context) = .ok sps →
      sps.redirect = some r →
      (serverHandler isProd ext options request context).result =
        .ok { status := sps.status.getD 302
              headers := [("location", r.url)]
              body := none }) := by
  constructor
  · intro element initialStatus rctx r hred
    unfold render
    rw [hred]
  · intro isProd ext options request context route page server app document
      rh rt comp appName sps r hR hM hS hA hD hH hT hPd hAd hForm hMethod
      hSite hG hRed
    simp [serverHandler, dispatchTry, dispatchGetOr405, render, promiseAll4,
      hR, hM, hS, hA, hD, hH, hT, hPd, hAd, hForm, hMethod, hSite, hG, hRed]

end Site

namespace Site

/-- Witness for C2 at a concrete redirecting page: status 301, a `location`
header of `/x`, and an absent body. -/
theorem C2_redirect_short_circuit_witness :
    spsRedirect.redirect = some { url := "/x" } ∧
    (serverHandler false extTrivial optionsRedirect reqGetIndex .null).result =
      .ok { status := 301, headers := [("location", "/x")], body := none } := by
  constructor
  · rfl
  · exact C2_redirect_short_circuit.2 false extTrivial optionsRedirect
      reqGetIndex .null routeRedirect pageModuleOk serverModRedirect
      { default := some ("App") }
      { renderHead := some documentRenderHead
        renderTail := some documentRenderTail }
      documentRenderHead documentRenderTail ("Page") ("App") spsRedirect
      { url := "/x" } rfl rfl rfl rfl rfl rfl rfl rfl rfl rfl rfl
      (by decide) rfl rfl

/-- C1 counterexample: with a concrete page whose view-module load rejects,
the joined module await rejects and the rejection propagates out of the
dispatcher — no error-page response is produced, contradicting the claim
that a module-load failure is routed to ErrorRecovery. -/
theorem C1_module_load_failure_cex :
    (serverHandler false extTrivial optionsBadLoad reqGetIndex .null).result =
      .error boomVal ∧
    ∀ resp : Response,
      (serverHandler false extTrivial optionsBadLoad reqGetIndex .null).result ≠
        .ok resp := by
  refine ⟨rfl, ?_⟩
  intro resp h
  have h1 : (serverHandler false extTrivial optionsBadLoad reqGetIndex .null).result =
      .error boomVal := rfl
  rw [h1] at h
  exact Except.noConfusion h

/-- C1 (amended): the four module loads are awaited as one joined
`Promise.all` — it succeeds exactly when all four loads succeed — and a
rejection of any of them makes the dispatcher's result that rejection:
it propagates out of the dispatcher (ErrorRecovery is never entered: nothing
is caught and no hook runs), unlike a later rendering failure. -/
theorem C1_module_loads_joined :
    (∀ {α β γ δ : Type} (a : Except JsVal α) (b : Except JsVal β)
      (c : Except JsVal γ) (d : Except JsVal δ) (x : α) (y : β) (z : γ) (w : δ),
      promiseAll4 a b c d = .ok (x, y, z, w) ↔
        a = .ok x ∧ b = .ok y ∧ c = .ok z ∧ d = .ok w) ∧
    (∀ (isProd : Bool) (ext : Ext) (options : ServerOptions)
      (request : Request) (context : JsVal) (route : Route) (e : JsVal),
      createPageRouter ext options.pages (request.pathname.drop 1) = some route →
      promiseAll4 route.module route.serverModule (appModuleOf options)
        (documentModuleOf options) = .error e →
      serverHandler isProd ext options request context =
        { events := [], caught := none, result := .error e }) := by
  constructor
  · intro α β γ δ a b c d x y z w
    cases a <;> cases b <;> cases c <;> cases d <;>
      simp [promiseAll4, and_assoc]
  · intro isProd ext options request context route e hR hAll
    simp [serverHandler, hR, hAll]

/-- Witness for the amended C1 at the concrete rejecting page: the joined
load rejects with `boomVal` and the dispatcher's outcome is exactly that
propagated rejection. -/
theorem C1_module_loads_joined_witness :
    promiseAll4 (Except.error boomVal : Except JsVal PageModule)
        (.ok ({} : PageServerModule)) (appModuleOf optionsBadLoad)
        (documentModuleOf optionsBadLoad) = .error boomVal ∧
    serverHandler false extTrivial optionsBadLoad reqGetIndex .null =
      { events := [], caught := none, result := .error boomVal } := by
  constructor
  · rfl
  · exact C1_module_loads_joined.2 false extTrivial optionsBadLoad reqGetIndex
      .null { key := "index", module := .error boomVal, serverModule := .ok {}
              scriptUrl := none, cssUrls := none, params := [] }
      boomVal rfl rfl

end Site

namespace Site

/-- C3 counterexample: a module-loading rejection (here: the server-logic
module load) is *not* routed to ErrorRecovery — the dispatcher's catch is
never entered (nothing caught, no hooks run) and the rejection propagates
out, contradicting the claim's "during module loading" trigger. -/
theorem C3_module_load_not_recovered_cex :
    serverHandler false extTrivial optionsBadServerLoad reqGetIndex .null =
      { events := [], caught := none, result := .error boom2Val } ∧
    ∀ resp : Response,
      (serverHandler false extTrivial optionsBadServerLoad reqGetIndex .null).result ≠
        .ok resp := by
  refine ⟨rfl, ?_⟩
  intro resp h
  have h1 : (serverHandler false extTrivial optionsBadServerLoad reqGetIndex .null).result =
      .error boom2Val := rfl
  rw [h1] at h
  exact Except.noConfusion h

/-- C3 (amended): an exception thrown *after* the module-loading step — here
a `getServerSideProps` throw on the GET path — re-enters rendering with the
error route: the caught value is assigned to `context.error` before the
error page's own hook runs, the status is 500 unless that hook overrides it,
and the error page renders standalone (no app wrapper).  An exception raised
inside this recovery itself (here: the error page's module load rejecting)
propagates out of the dispatcher with no second recovery. -/
theorem C3_error_recovery :
    (∀ (isProd : Bool) (ext : Ext) (options : ServerOptions)
      (request : Request) (context : JsVal) (route : Route) (page : PageModule)
      (server : PageServerModule) (app : AppModule) (document : DocumentModule)
      (rh : HeadOptions → String) (rt : TailOptions → String)
      (comp appName ecomp : String) (e : JsVal) (epage : PageModule)
      (eserver : PageServerModule) (esps : ServerSideProps),
      createPageRouter ext options.pages (request.pathname.drop 1) = some route →
      route.module = .ok page →
      route.serverModule = .ok server →
      appModuleOf options = .ok app →
      documentModuleOf options = .ok document →
      document.renderHead = some rh →
      document.renderTail = some rt →
      page.default = some comp →
      app.default = some appName →
      server.form = none →
      request.method = "GET" →
      request.search.get ("__site__") ≠ some ("1") →
      getServerSidePropsFn server (mkContext route request context) = .error e →
      (errorRouteOf isProd options).module = .ok epage →
      (errorRouteOf isProd options).serverModule = .ok eserver →
      epage.default = some ecomp →
      getServerSidePropsFn eserver (withError (mkContext route request context) e) =
        .ok esps →
      esps.redirect = none →
      (serverHandler isProd ext options request context).caught = some e ∧
      (serverHandler isProd ext options request context).result =
        .ok { status := esps.status.getD 500
              headers := [("content-type", "text/html")]
              body := some (.react
                { page := .comp ecomp
                  context :=
                    { route, serverSideProps := some esps
                      loader := getLoader server (mkContext route request context)
                      formData := none, renderHead := rh, renderTail := rt } }) }) ∧
    (∀ (isProd : Bool) (ext : Ext) (options : ServerOptions)
      (request : Request) (context : JsVal) (route : Route) (page : PageModule)
      (server : PageServerModule) (app : AppModule) (document : DocumentModule)
      (rh : HeadOptions → String) (rt : TailOptions → String)
      (comp appName : String) (e e2 : JsVal),
      createPageRouter ext options.pages (request.pathname.drop 1) = some route →
      route.module = .ok page →
      route.serverModule = .ok server →
      appModuleOf options = .ok app →
      documentModuleOf options = .ok document →
      document.renderHead = some rh →
      document.renderTail = some rt →
      page.default = some comp →
      app.default = some appName →
      server.form = none →
      request.method = "GET" →
      request.search.get ("__site__") ≠ some ("1") →
      getServerSidePropsFn server (mkContext route request context) = .error e →
      (errorRouteOf isProd options).module = .error e2 →
      (serverHandler isProd ext options request context).result = .error e2) := by
  constructor
  · intro isProd ext options request context route page server app document
      rh rt comp appName ecomp e epage eserver esps hR hM hS hA hD hH hT hPd
      hAd hForm hMethod hSite hG hEM hES hEPd hEG hERed
    constructor
    · simp [serverHandler, dispatchTry, dispatchGetOr405, recover, render,
        promiseAll4, promiseAll2, hR, hM, hS, hA, hD, hH, hT, hPd, hAd, hForm,
        hMethod, hSite, hG, hEM, hES, hEPd, hEG, hERed]
    · simp [serverHandler, dispatchTry, dispatchGetOr405, recover, render,
        promiseAll4, promiseAll2, hR, hM, hS, hA, hD, hH, hT, hPd, hAd, hForm,
        hMethod, hSite, hG, hEM, hES, hEPd, hEG, hERed]
  · intro isProd ext options request context route page server app document
      rh rt comp appName e e2 hR hM hS hA hD hH hT hPd hAd hForm hMethod hSite
      hG hEM
    simp [serverHandler, dispatchTry, dispatchGetOr405, recover, promiseAll4,
      promiseAll2, hR, hM, hS, hA, hD, hH, hT, hPd, hAd, hForm, hMethod,
      hSite, hG, hEM]

/-- Witness for the amended C3 at a concrete throwing hook: the thrown value
is caught, `context.error` carries it into the default error page hook
(which reports status 500), the error page renders standalone; and with an
error page whose own module load rejects, the rejection escapes. -/
theorem C3_error_recovery_witness :
    getServerSidePropsFn serverModThrow (mkContext routeThrow reqGetIndex .null) =
      .error boomVal ∧
    (serverHandler false extTrivial optionsThrow reqGetIndex .null).caught =
      some boomVal ∧
    (serverHandler false extTrivial optionsThrow reqGetIndex .null).result =
      .ok { status := 500
            headers := [("content-type", "text/html")]
            body := some (.react
              { page := .comp ("Error")
                context :=
                  { route := routeThrow, serverSideProps := some spsErrorBoom
                    loader := getLoader serverModThrow (mkContext routeThrow reqGetIndex .null)
                    formData := none, renderHead := documentRenderHead
                    renderTail := documentRenderTail } }) } ∧
    (serverHandler false extTrivial optionsThrowBadError reqGetIndex .null).result =
      .error boom2Val := by
  refine ⟨rfl, ?_, ?_, ?_⟩
  · exact (C3_error_recovery.1 false extTrivial optionsThrow reqGetIndex .null
      routeThrow pageModuleOk serverModThrow { default := some ("App") }
      { renderHead := some documentRenderHead
        renderTail := some documentRenderTail }
      documentRenderHead documentRenderTail ("Page") ("App") ("Error") boomVal
      errorPageModuleDefault
      { getServerSideProps := some (errorGetServerSideProps false) }
      spsErrorBoom rfl rfl rfl rfl rfl rfl rfl rfl rfl rfl rfl (by decide)
      rfl rfl rfl rfl rfl rfl).1
  · exact (C3_error_recovery.1 false extTrivial optionsThrow reqGetIndex .null
      routeThrow pageModuleOk serverModThrow { default := some ("App") }
      { renderHead := some documentRenderHead
        renderTail := some documentRenderTail }
      documentRenderHead documentRenderTail ("Page") ("App") ("Error") boomVal
      errorPageModuleDefault
      { getServerSideProps := some (errorGetServerSideProps false) }
      spsErrorBoom rfl rfl rfl rfl rfl rfl rfl rfl rfl rfl rfl (by decide)
      rfl rfl rfl rfl rfl rfl).2
  · exact C3_error_recovery.2 false extTrivial optionsThrowBadError reqGetIndex
      .null routeThrow pageModuleOk serverModThrow { default := some ("App") }
      { renderHead := some documentRenderHead
        renderTail := some documentRenderTail }
      documentRenderHead documentRenderTail ("Page") ("App") boomVal boom2Val
      rfl rfl rfl rfl rfl rfl rfl rfl rfl rfl rfl (by decide) rfl rfl

end Site

namespace SiteV1

/-- Membership in a JavaScript-`Set`-style insertion. -/
theorem mem_insertUnique (l : List String) (x y : String) :
    y ∈ insertUnique l x ↔ y ∈ l ∨ y = x := by
  unfold insertUnique
  split_ifs with h
  · constructor
    · exact Or.inl
    · rintro (hy | rfl)
      · exact hy
      · exact h
  · simp [List.mem_append]

/-- Membership after folding `Set.add` over a key list. -/
theorem mem_foldl_insertUnique (ks : List String) (l : List String) (y : String) :
    y ∈ ks.foldl insertUnique l ↔ y ∈ l ∨ y ∈ ks := by
  induction ks generalizing l with
  | nil => simp
  | cons k ks ih =>
    simp only [List.foldl_cons, ih, mem_insertUnique, List.mem_cons]
    constructor
    · rintro ((hy | rfl) | hy)
      · exact Or.inl hy
      · exact Or.inr (Or.inl rfl)
      · exact Or.inr (Or.inr hy)
    · rintro (hy | rfl | hy)
      · exact Or.inl (Or.inl hy)
      · exact Or.inl (Or.inr rfl)
      · exact Or.inr hy

/-- Characterization of the earlier revision's allow list: `GET`, plus `POST`
exactly when a form handler exists, plus the registered per-method handler
keys. -/
theorem mem_allowList (sm : PageServerModule) (y : String) :
    y ∈ allowList sm ↔
      y = "GET" ∨ (y = "POST" ∧ sm.onSubmit.isSome = true) ∨
        y ∈ sm.onRequest.getD [] := by
  unfold allowList
  cases hOR : sm.onRequest with
  | none =>
    cases hOS : sm.onSubmit.isSome with
    | false => simp [hOS]
    | true => simp [hOS, mem_insertUnique]
  | some keys =>
    cases hOS : sm.onSubmit.isSome with
    | false => simp [hOS, mem_foldl_insertUnique]
    | true =>
      simp only [hOS, if_true, mem_foldl_insertUnique, mem_insertUnique,
        Option.getD_some, List.mem_singleton]
      constructor
      · rintro ((rfl | rfl) | hy)
        · exact Or.inl rfl
        · exact Or.inr (Or.inl ⟨rfl, trivial⟩)
        · exact Or.inr (Or.inr hy)
      · rintro (rfl | ⟨rfl, _⟩ | hy)
        · exact Or.inl (Or.inl rfl)
        · exact Or.inl (Or.inr rfl)
        · exact Or.inr hy

end SiteV1

namespace Site

/-- C5: a request whose method matches no dispatch branch of the matched
route gets a 405 response whose `allow` header is derived from that route's
resolved server-logic module: in the current revision `GET` plus `POST` when
a form handler exists (this module shape has no custom per-method handlers),
and in the earlier revision additionally every registered `onRequest` method;
in particular, with no form handler and no custom handler the header is
exactly `GET`. -/
theorem C5_allow_header :
    (∀ (isProd : Bool) (ext : Ext) (options : ServerOptions)
      (request : Request) (context : JsVal) (route : Route) (page : PageModule)
      (server : PageServerModule) (app : AppModule) (document : DocumentModule)
      (rh : HeadOptions → String) (rt : TailOptions → String)
      (comp appName : String),
      createPageRouter ext options.pages (request.pathname.drop 1) = some route →
      route.module = .ok page →
      route.serverModule = .ok server →
      appModuleOf options = .ok app →
      documentModuleOf options = .ok document →
      document.renderHead = some rh →
      document.renderTail = some rt →
      page.default = some comp →
      app.default = some appName →
      server.form = none →
      request.method ≠ "GET" →
      (serverHandler isProd ext options request context).result =
        .ok { status := 405
              headers := [("allow", generateAllowHeader server)]
              body := none }) ∧
    (∀ (isProd : Bool) (ext : Ext) (options : ServerOptions)
      (request : Request) (context : JsVal) (route : Route) (page : PageModule)
      (server : PageServerModule) (app : AppModule) (document : DocumentModule)
      (rh : HeadOptions → String) (rt : TailOptions → String)
      (comp appName : String) (f : ServerSideContext → Except JsVal JsVal),
      createPageRouter ext options.pages (request.pathname.drop 1) = some route →
      route.module = .ok page →
      route.serverModule = .ok server →
      appModuleOf options = .ok app →
      documentModuleOf options = .ok document →
      document.renderHead = some rh →
      document.renderTail = some rt →
      page.default = some comp →
      app.default = some appName →
      server.form = some f →
      request.method ≠ "GET" →
      request.method ≠ "POST" →
      (serverHandler isProd ext options request context).result =
        .ok { status := 405
              headers := [("allow", generateAllowHeader server)]
              body := none }) ∧
    (∀ server : PageServerModule, server.form = none →
      generateAllowHeader server = "GET") ∧
    (∀ (server : PageServerModule) (f : ServerSideContext → Except JsVal JsVal),
      server.form = some f → generateAllowHeader server = "GET,POST") ∧
    (∀ (sm : SiteV1.PageServerModule) (y : String),
      y ∈ SiteV1.allowList sm ↔
        y = "GET" ∨ (y = "POST" ∧ sm.onSubmit.isSome = true) ∨
          y ∈ sm.onRequest.getD []) ∧
    (SiteV1.generateAllowHeader {} = "GET") := by
  refine ⟨?_, ?_, ?_, ?_, SiteV1.mem_allowList, by decide⟩
  · intro isProd ext options request context route page server app document
      rh rt comp appName hR hM hS hA hD hH hT hPd hAd hForm hNG
    simp [serverHandler, dispatchTry, dispatchGetOr405, promiseAll4,
      hR, hM, hS, hA, hD, hH, hT, hPd, hAd, hForm, hNG]
  · intro isProd ext options request context route page server app document
      rh rt comp appName f hR hM hS hA hD hH hT hPd hAd hForm hNG hNP
    simp [serverHandler, dispatchTry, dispatchGetOr405, promiseAll4,
      hR, hM, hS, hA, hD, hH, hT, hPd, hAd, hForm, hNG, hNP]
  · intro server h
    simp only [generateAllowHeader, h, Option.isSome_none, Bool.false_eq_true,
      if_false]
    decide
  · intro server f h
    simp only [generateAllowHeader, h, Option.isSome_some, if_true]
    decide

/-- Witness for C5: a DELETE on a page with no handlers yields 405 with an
`allow` header of exactly `GET`; a DELETE on a page with a form handler
yields 405 with `GET,POST`; and in the earlier revision a registered
`PUT` handler appears in the allow list. -/
theorem C5_allow_header_witness :
    reqDeleteIndex.method ≠ "GET" ∧
    (serverHandler false extTrivial optionsPlain reqDeleteIndex .null).result =
      .ok { status := 405, headers := [("allow", "GET")], body := none } ∧
    (serverHandler false extTrivial optionsForm reqDeleteIndex .null).result =
      .ok { status := 405, headers := [("allow", "GET,POST")], body := none } ∧
    ("PUT" ∈ SiteV1.allowList { onRequest := some ["PUT"] }) := by
  refine ⟨by decide, ?_, ?_, ?_⟩
  · exact C5_allow_header.1 false extTrivial optionsPlain reqDeleteIndex .null
      routePlain pageModuleOk {} { default := some ("App") }
      { renderHead := some documentRenderHead
        renderTail := some documentRenderTail }
      documentRenderHead documentRenderTail ("Page") ("App")
      rfl rfl rfl rfl rfl rfl rfl rfl rfl rfl (by decide)
  · exact C5_allow_header.2.1 false extTrivial optionsForm reqDeleteIndex .null
      routeForm pageModuleOk serverModForm { default := some ("App") }
      { renderHead := some documentRenderHead
        renderTail := some documentRenderTail }
      documentRenderHead documentRenderTail ("Page") ("App")
      (fun _ => .ok formDataVal)
      rfl rfl rfl rfl rfl rfl rfl rfl rfl rfl (by decide) (by decide)
  · exact (C5_allow_header.2.2.2.2.1 { onRequest := some ["PUT"] } ("PUT")).mpr
      (Or.inr (Or.inr (by decide)))

end Site

namespace Site

/-- C6: on a POST to a matched route whose server-logic module exposes a form
handler, when the request was classified as form-encoded the handler is
invoked exactly once (before the single `getServerSideProps` run) and the
page renders wrapped in the app component with the form data exposed in the
page data, status 200 unless the hook overrides it; when the content type
does not match form encoding the response is 415 with an empty body and the
form handler is never invoked. -/
theorem C6_form_dispatch :
    (∀ (isProd : Bool) (ext : Ext) (options : ServerOptions)
      (request : Request) (context : JsVal) (route : Route) (page : PageModule)
      (server : PageServerModule) (app : AppModule) (document : DocumentModule)
      (rh : HeadOptions → String) (rt : TailOptions → String)
      (comp appName : String) (f : ServerSideContext → Except JsVal JsVal)
      (fd : JsVal) (sps : ServerSideProps),
      createPageRouter ext options.pages (request.pathname.drop 1) = some route →
      route.module = .ok page →
      route.serverModule = .ok server →
      appModuleOf options = .ok app →
      documentModuleOf options = .ok document →
      document.renderHead = some rh →
      document.renderTail = some rt →
      page.default = some comp →
      app.default = some appName →
      server.form = some f →
      request.method = "POST" →
      request.type = RequestType.FORM →
      f (mkContext route request context) = .ok fd →
      getServerSidePropsFn server (mkContext route request context) = .ok sps →
      sps.redirect = none →
      (serverHandler isProd ext options request context).events =
        [.formInvoke, .gsspInvoke] ∧
      ((serverHandler isProd ext options request context).events.count
        Event.formInvoke) = 1 ∧
      (serverHandler isProd ext options request context).result =
        .ok { status := sps.status.getD 200
              headers := [("content-type", "text/html")]
              body := some (.react
                { page := .app appName (.comp comp)
                  context :=
                    { route, serverSideProps := some sps
                      loader := getLoader server (mkContext route request context)
                      formData := some fd, renderHead := rh
                      renderTail := rt } }) }) ∧
    (∀ (b : ReactBody), b.pageData.formData = b.context.formData) ∧
    (∀ (isProd : Bool) (ext : Ext) (options : ServerOptions)
      (request : Request) (context : JsVal) (route : Route) (page : PageModule)
      (server : PageServerModule) (app : AppModule) (document : DocumentModule)
      (rh : HeadOptions → String) (rt : TailOptions → String)
      (comp appName : String) (f : ServerSideContext → Except JsVal JsVal),
      createPageRouter ext options.pages (request.pathname.drop 1) = some route →
      route.module = .ok page →
      route.serverModule = .ok server →
      appModuleOf options = .ok app →
      documentModuleOf options = .ok document →
      document.renderHead = some rh →
      document.renderTail = some rt →
      page.default = some comp →
      app.default = some appName →
      server.form = some f →
      request.method = "POST" →
      request.type ≠ RequestType.FORM →
      (serverHandler isProd ext options request context).events = [] ∧
      (serverHandler isProd ext options request context).result =
        .ok { status := 415, headers := [], body := none }) := by
  refine ⟨?_, ?_, ?_⟩
  · intro isProd ext options request context route page server app document
      rh rt comp appName f fd sps hR hM hS hA hD hH hT hPd hAd hForm hMethod
      hType hF hG hRed
    refine ⟨?_, ?_, ?_⟩ <;>
      simp [serverHandler, dispatchTry, render, promiseAll4,
        hR, hM, hS, hA, hD, hH, hT, hPd, hAd, hForm, hMethod, hType, hF, hG,
        hRed]
  · intro b
    rfl
  · intro isProd ext options request context route page server app document
      rh rt comp appName f hR hM hS hA hD hH hT hPd hAd hForm hMethod hType
    constructor <;>
      simp [serverHandler, dispatchTry, promiseAll4,
        hR, hM, hS, hA, hD, hH, hT, hPd, hAd, hForm, hMethod, hType]

/-- Witness for C6 at a concrete form page: the form-encoded POST renders
with status 200 and the handler's object in the page data, the handler
having run exactly once; the mismatched POST yields 415 with an empty
body. -/
theorem C6_form_dispatch_witness :
    reqPostForm.type = RequestType.FORM ∧
    (serverHandler false extTrivial optionsForm reqPostForm .null).events.count
      Event.formInvoke = 1 ∧
    (serverHandler false extTrivial optionsForm reqPostForm .null).result =
      .ok { status := 200
            headers := [("content-type", "text/html")]
            body := some (.react
              { page := .app ("App") (.comp ("Page"))
                context :=
                  { route := routeForm
                    serverSideProps := some { props := .emptyObj }
                    loader := getLoader serverModForm
                      (mkContext routeForm reqPostForm .null)
                    formData := some formDataVal
                    renderHead := documentRenderHead
                    renderTail := documentRenderTail } }) } ∧
    (serverHandler false extTrivial optionsForm reqPostNotForm .null).result =
      .ok { status := 415, headers := [], body := none } := by
  refine ⟨rfl, ?_, ?_, ?_⟩
  · exact (C6_form_dispatch.1 false extTrivial optionsForm reqPostForm .null
      routeForm pageModuleOk serverModForm { default := some ("App") }
      { renderHead := some documentRenderHead
        renderTail := some documentRenderTail }
      documentRenderHead documentRenderTail ("Page") ("App")
      (fun _ => .ok formDataVal) formDataVal { props := .emptyObj }
      rfl rfl rfl rfl rfl rfl rfl rfl rfl rfl rfl rfl rfl rfl rfl).2.1
  · exact (C6_form_dispatch.1 false extTrivial optionsForm reqPostForm .null
      routeForm pageModuleOk serverModForm { default := some ("App") }
      { renderHead := some documentRenderHead
        renderTail := some documentRenderTail }
      documentRenderHead documentRenderTail ("Page") ("App")
      (fun _ => .ok formDataVal) formDataVal { props := .emptyObj }
      rfl rfl rfl rfl rfl rfl rfl rfl rfl rfl rfl rfl rfl rfl rfl).2.2
  · exact (C6_form_dispatch.2.2 false extTrivial optionsForm reqPostNotForm
      .null routeForm pageModuleOk serverModForm { default := some ("App") }
      { renderHead := some documentRenderHead
        renderTail := some documentRenderTail }
      documentRenderHead documentRenderTail ("Page") ("App")
      (fun _ => .ok formDataVal)
      rfl rfl rfl rfl rfl rfl rfl rfl rfl rfl rfl (by decide)).2

end Site

namespace Site

/-- C7 counterexample: the dispatcher does *not* normalize the method — two
requests identical except for method case are dispatched differently: the
lowercase `get` falls through to the 405 branch while `GET` renders with
status 200. -/
theorem C7_method_case_sensitive_cex :
    reqLowerGet = { reqGetIndex with method := "get" } ∧
    (serverHandler false extTrivial optionsPlain reqLowerGet .null).result =
      .ok { status := 405, headers := [("allow", "GET")], body := none } ∧
    (serverHandler false extTrivial optionsPlain reqGetIndex .null).result =
      .ok { status := 200
            headers := [("content-type", "text/html")]
            body := some (.react
              { page := .app ("App") (.comp ("Page"))
                context :=
                  { route := routePlain
                    serverSideProps := some { props := .emptyObj }
                    loader := getLoader {}
                      (mkContext routePlain reqGetIndex .null)
                    formData := none
                    renderHead := documentRenderHead
                    renderTail := documentRenderTail } }) } := by
  exact ⟨rfl, rfl, rfl⟩

/-- C7 (amended): uppercase normalization of the method happens in the node
transport adapter (`fromNodeRequest`), not in the dispatcher's routing step;
the routing step strips the leading slash before matching (visible in the
not-found conjuncts below, which route on `pathname.drop 1`), and on no
router match the dispatcher uses the synthetic not-found route, whose key is
`_404` and whose params are empty, answering 404 — rendering the not-found
page standalone on GET and an empty 404 otherwise.  Routing is a total
function: it cannot throw. -/
theorem C7_routing_fallback :
    (∀ s : String, fromNodeRequestMethod (some s) = toUpperStr s) ∧
    (fromNodeRequestMethod none = "GET") ∧
    (∀ options : ServerOptions,
      (notFoundRouteOf options).key = "_404" ∧
      (notFoundRouteOf options).params = []) ∧
    (∀ (isProd : Bool) (ext : Ext) (options : ServerOptions)
      (request : Request) (context : JsVal) (page : PageModule)
      (server : PageServerModule) (app : AppModule) (document : DocumentModule)
      (rh : HeadOptions → String) (rt : TailOptions → String) (comp : String),
      createPageRouter ext options.pages (request.pathname.drop 1) = none →
      (notFoundRouteOf options).module = .ok page →
      (notFoundRouteOf options).serverModule = .ok server →
      appModuleOf options = .ok app →
      documentModuleOf options = .ok document →
      document.renderHead = some rh →
      document.renderTail = some rt →
      page.default = some comp →
      request.method ≠ "GET" →
      (serverHandler isProd ext options request context).result =
        .ok { status := 404, headers := [], body := none }) ∧
    (∀ (isProd : Bool) (ext : Ext) (options : ServerOptions)
      (request : Request) (context : JsVal) (page : PageModule)
      (server : PageServerModule) (app : AppModule) (document : DocumentModule)
      (rh : HeadOptions → String) (rt : TailOptions → String) (comp : String)
      (sps : ServerSideProps),
      createPageRouter ext options.pages (request.pathname.drop 1) = none →
      (notFoundRouteOf options).module = .ok page →
      (notFoundRouteOf options).serverModule = .ok server →
      appModuleOf options = .ok app →
      documentModuleOf options = .ok document →
      document.renderHead = some rh →
      document.renderTail = some rt →
      page.default = some comp →
      request.method = "GET" →
      getServerSidePropsFn server
        (mkContext (notFoundRouteOf options) request context) = .ok sps →
      sps.redirect = none →
      (serverHandler isProd ext options request context).result =
        .ok { status := sps.status.getD 404
              headers := [("content-type", "text/html")]
              body := some (.react
                { page := .comp comp
                  context :=
                    { route := notFoundRouteOf options
                      serverSideProps := some sps
                      loader := getLoader server
                        (mkContext (notFoundRouteOf options) request context)
                      formData := none, renderHead := rh
                      renderTail := rt } }) }) := by
  refine ⟨?_, by decide, ?_, ?_, ?_⟩
  · intro s
    rfl
  · intro options
    cases h : options.notFound <;> simp [notFoundRouteOf, h]
  · intro isProd ext options request context page server app document rh rt
      comp hR hM hS hA hD hH hT hPd hNG
    simp [serverHandler, dispatchTry, promiseAll4,
      hR, hM, hS, hA, hD, hH, hT, hPd, hNG]
  · intro isProd ext options request context page server app document rh rt
      comp sps hR hM hS hA hD hH hT hPd hMethod hG hRed
    simp [serverHandler, dispatchTry, render, promiseAll4,
      hR, hM, hS, hA, hD, hH, hT, hPd, hMethod, hG, hRed]

/-- Witness for the amended C7: the adapter uppercases `get`; a GET for an
unregistered path renders the default not-found page standalone with 404,
and a DELETE for it yields an empty 404. -/
theorem C7_routing_fallback_witness :
    fromNodeRequestMethod (some ("get")) = "GET" ∧
    (notFoundRouteOf optionsPlain).key = "_404" ∧
    (serverHandler false extTrivial optionsPlain reqDeleteMissing .null).result =
      .ok { status := 404, headers := [], body := none } ∧
    (serverHandler false extTrivial optionsPlain reqGetMissing .null).result =
      .ok { status := 404
            headers := [("content-type", "text/html")]
            body := some (.react
              { page := .comp ("NotFound")
                context :=
                  { route := notFoundRouteOf optionsPlain
                    serverSideProps := some { props := .emptyObj }
                    loader := getLoader {}
                      (mkContext (notFoundRouteOf optionsPlain) reqGetMissing .null)
                    formData := none
                    renderHead := documentRenderHead
                    renderTail := documentRenderTail } }) } := by
  refine ⟨(C7_routing_fallback.1 ("get")).trans (by decide),
    (C7_routing_fallback.2.2.1 optionsPlain).1, ?_, ?_⟩
  · exact C7_routing_fallback.2.2.2.1 false extTrivial optionsPlain
      reqDeleteMissing .null notFoundPageModuleDefault {}
      { default := some ("App") }
      { renderHead := some documentRenderHead
        renderTail := some documentRenderTail }
      documentRenderHead documentRenderTail ("NotFound")
      rfl rfl rfl rfl rfl rfl rfl rfl (by decide)
  · exact C7_routing_fallback.2.2.2.2 false extTrivial optionsPlain
      reqGetMissing .null notFoundPageModuleDefault {}
      { default := some ("App") }
      { renderHead := some documentRenderHead
        renderTail := some documentRenderTail }
      documentRenderHead documentRenderTail ("NotFound") { props := .emptyObj }
      rfl rfl rfl rfl rfl rfl rfl rfl rfl rfl rfl

end Site

namespace Site

/-- C10: a GET to a matched non-fallback route whose query carries
`__site__=1` bypasses page rendering entirely: no `getServerSideProps` runs
and the response is 200 with content-type `application/json` and a body that
is the JSON serialization of the loader applied to the JSON-parsed `data`
query values; when the server-logic module defines no loader, the invoked
loader thunk throws a `TypeError` naming the route key, which falls through
to the error page. -/
theorem C10_loader_requests :
    (∀ (isProd : Bool) (ext : Ext) (options : ServerOptions)
      (request : Request) (context : JsVal) (route : Route) (page : PageModule)
      (server : PageServerModule) (app : AppModule) (document : DocumentModule)
      (rh : HeadOptions → String) (rt : TailOptions → String)
      (comp appName : String) (args : List JsVal) (data : JsVal)
      (body : String),
      createPageRouter ext options.pages (request.pathname.drop 1) = some route →
      route.module = .ok page →
      route.serverModule = .ok server →
      appModuleOf options = .ok app →
      documentModuleOf options = .ok document →
      document.renderHead = some rh →
      document.renderTail = some rt →
      page.default = some comp →
      app.default = some appName →
      request.method = "GET" →
      request.search.get ("__site__") = some ("1") →
      mapExcept ext.jsonParse (request.search.getAll ("data")) = .ok args →
      getLoader server (mkContext route request context) args = .ok data →
      jsonStringifyTop data = some body →
      (serverHandler isProd ext options request context).events =
        [.loaderInvoke] ∧
      (serverHandler isProd ext options request context).result =
        .ok { status := 200
              headers := [("content-type", "application/json")]
              body := some (.str body) }) ∧
    (∀ (server : PageServerModule) (ctx : ServerSideContext) (args : List JsVal),
      server.loader = none →
      getLoader server ctx args =
        .error (typeErrorVal
          ("Missing a data loader implementation: " ++ ctx.key))) ∧
    (∀ (isProd : Bool) (ext : Ext) (options : ServerOptions)
      (request : Request) (context : JsVal) (route : Route) (page : PageModule)
      (server : PageServerModule) (app : AppModule) (document : DocumentModule)
      (rh : HeadOptions → String) (rt : TailOptions → String)
      (comp appName ecomp : String) (args : List JsVal) (epage : PageModule)
      (eserver : PageServerModule) (esps : ServerSideProps),
      createPageRouter ext options.pages (request.pathname.drop 1) = some route →
      route.module = .ok page →
      route.serverModule = .ok server →
      appModuleOf options = .ok app →
      documentModuleOf options = .ok document →
      document.renderHead = some rh →
      document.renderTail = some rt →
      page.default = some comp →
      app.default = some appName →
      request.method = "GET" →
      request.search.get ("__site__") = some ("1") →
      mapExcept ext.jsonParse (request.search.getAll ("data")) = .ok args →
      server.loader = none →
      (errorRouteOf isProd options).module = .ok epage →
      (errorRouteOf isProd options).serverModule = .ok eserver →
      epage.default = some ecomp →
      getServerSidePropsFn eserver
        (withError (mkContext route request context)
          (typeErrorVal ("Missing a data loader implementation: " ++ route.key))) =
        .ok esps →
      esps.redirect = none →
      (serverHandler isProd ext options request context).caught =
        some (typeErrorVal
          ("Missing a data loader implementation: " ++ route.key)) ∧
      (serverHandler isProd ext options request context).result =
        .ok { status := esps.status.getD 500
              headers := [("content-type", "text/html")]
              body := some (.react
                { page := .comp ecomp
                  context :=
                    { route, serverSideProps := some esps
                      loader := getLoader server (mkContext route request context)
                      formData := none, renderHead := rh
                      renderTail := rt } }) }) := by
  refine ⟨?_, ?_, ?_⟩
  · intro isProd ext options request context route page server app document
      rh rt comp appName args data body hR hM hS hA hD hH hT hPd hAd hMethod
      hSite hArgs hL hJ
    cases hform : server.form with
    | none =>
      constructor <;>
        simp [serverHandler, dispatchTry, dispatchGetOr405, dispatchLoader,
          promiseAll4, hR, hM, hS, hA, hD, hH, hT, hPd, hAd, hMethod, hSite,
          hArgs, hL, hJ, hform]
    | some f =>
      constructor <;>
        simp [serverHandler, dispatchTry, dispatchGetOr405, dispatchLoader,
          promiseAll4, hR, hM, hS, hA, hD, hH, hT, hPd, hAd, hMethod, hSite,
          hArgs, hL, hJ, hform]
  · intro server ctx args h
    simp [getLoader, h]
  · intro isProd ext options request context route page server app document
      rh rt comp appName ecomp args epage eserver esps hR hM hS hA hD hH hT
      hPd hAd hMethod hSite hArgs hNoLoader hEM hES hEPd hEG hERed
    have hL : getLoader server (mkContext route request context) args =
        .error (typeErrorVal
          ("Missing a data loader implementation: " ++ route.key)) := by
      simp [getLoader, hNoLoader, mkContext]
    cases hform : server.form with
    | none =>
      constructor <;>
        simp [serverHandler, dispatchTry, dispatchGetOr405, dispatchLoader,
          recover, render, promiseAll4, promiseAll2, hR, hM, hS, hA, hD, hH,
          hT, hPd, hAd, hMethod, hSite, hArgs, hL, hform, hEM, hES, hEPd,
          hEG, hERed]
    | some f =>
      constructor <;>
        simp [serverHandler, dispatchTry, dispatchGetOr405, dispatchLoader,
          recover, render, promiseAll4, promiseAll2, hR, hM, hS, hA, hD, hH,
          hT, hPd, hAd, hMethod, hSite, hArgs, hL, hform, hEM, hES, hEPd,
          hEG, hERed]

/-- Witness for C10: with a concrete loader returning 42, the `__site__=1`
GET answers 200/`application/json` with body `42` and no hook but the loader
runs; on the loader-less page the named `TypeError` is caught and the
default error page renders with status 500. -/
theorem C10_loader_requests_witness :
    reqGetSite.search.get ("__site__") = some ("1") ∧
    (serverHandler false extTrivial optionsLoader reqGetSite .null).events =
      [.loaderInvoke] ∧
    (serverHandler false extTrivial optionsLoader reqGetSite .null).result =
      .ok { status := 200
            headers := [("content-type", "application/json")]
            body := some (.str ("42")) } ∧
    getLoader {} (mkContext routePlain reqGetSite .null) [] =
      .error (typeErrorVal ("Missing a data loader implementation: index")) ∧
    (serverHandler false extTrivial optionsPlain reqGetSite .null).caught =
      some (typeErrorVal ("Missing a data loader implementation: index")) ∧
    (serverHandler false extTrivial optionsPlain reqGetSite .null).result =
      .ok { status := 500
            headers := [("content-type", "text/html")]
            body := some (.react
              { page := .comp ("Error")
                context :=
                  { route := routePlain
                    serverSideProps := some spsErrorLoader
                    loader := getLoader {}
                      (mkContext routePlain reqGetSite .null)
                    formData := none
                    renderHead := documentRenderHead
                    renderTail := documentRenderTail } }) } := by
  refine ⟨rfl, ?_, ?_, ?_, ?_, ?_⟩
  · exact (C10_loader_requests.1 false extTrivial optionsLoader reqGetSite
      .null routeLoader pageModuleOk serverModLoader { default := some ("App") }
      { renderHead := some documentRenderHead
        renderTail := some documentRenderTail }
      documentRenderHead documentRenderTail ("Page") ("App") [] (.num 42)
      ("42") rfl rfl rfl rfl rfl rfl rfl rfl rfl rfl rfl rfl rfl rfl).1
  · exact (C10_loader_requests.1 false extTrivial optionsLoader reqGetSite
      .null routeLoader pageModuleOk serverModLoader { default := some ("App") }
      { renderHead := some documentRenderHead
        renderTail := some documentRenderTail }
      documentRenderHead documentRenderTail ("Page") ("App") [] (.num 42)
      ("42") rfl rfl rfl rfl rfl rfl rfl rfl rfl rfl rfl rfl rfl rfl).2
  · exact C10_loader_requests.2.1 {} (mkContext routePlain reqGetSite .null)
      [] rfl
  · exact (C10_loader_requests.2.2 false extTrivial optionsPlain reqGetSite
      .null routePlain pageModuleOk {} { default := some ("App") }
      { renderHead := some documentRenderHead
        renderTail := some documentRenderTail }
      documentRenderHead documentRenderTail ("Page") ("App") ("Error") []
      errorPageModuleDefault
      { getServerSideProps := some (errorGetServerSideProps false) }
      spsErrorLoader rfl rfl rfl rfl rfl rfl rfl rfl rfl rfl rfl rfl rfl rfl
      rfl rfl rfl rfl).1
  · exact (C10_loader_requests.2.2 false extTrivial optionsPlain reqGetSite
      .null routePlain pageModuleOk {} { default := some ("App") }
      { renderHead := some documentRenderHead
        renderTail := some documentRenderTail }
      documentRenderHead documentRenderTail ("Page") ("App") ("Error") []
      errorPageModuleDefault
      { getServerSideProps := some (errorGetServerSideProps false) }
      spsErrorLoader rfl rfl rfl rfl rfl rfl rfl rfl rfl rfl rfl rfl rfl rfl
      rfl rfl rfl rfl).2

end Site

namespace Site

/-- C8: in both composed stream forms the write log is exactly the prefix
write, then the content chunks in order, then the suffix write, then the
close — content is never piped before the prefix write and the suffix is
never written before the content stream has drained, with no interleaving;
and because the suffix write happens at flush/finalization time, it is still
appended (and still last before the close) when the underlying render was
aborted mid-stream: the log does not depend on the aborted flag at all. -/
theorem C8_stream_ordering :
    (∀ (pre suf : String) (content : ContentStream),
      readableStreamWrites pre suf content =
        WriteEvent.chunk pre ::
          (content.chunks.map WriteEvent.chunk ++
            [WriteEvent.chunk suf, WriteEvent.close])) ∧
    (∀ (pre suf : String) (content : ContentStream),
      nodeStreamWrites pre suf content =
        WriteEvent.chunk pre ::
          (content.chunks.map WriteEvent.chunk ++
            [WriteEvent.chunk suf, WriteEvent.close])) ∧
    (∀ (pre suf : String) (chunks : List String),
      readableStreamWrites pre suf { chunks, aborted := true } =
        readableStreamWrites pre suf { chunks, aborted := false } ∧
      nodeStreamWrites pre suf { chunks, aborted := true } =
        nodeStreamWrites pre suf { chunks, aborted := false }) ∧
    (∀ (pre suf : String) (content : ContentStream),
      WriteEvent.chunk suf ∈ readableStreamWrites pre suf content ∧
      (readableStreamWrites pre suf content).head? =
        some (WriteEvent.chunk pre) ∧
      (readableStreamWrites pre suf content).getLast? =
        some WriteEvent.close) := by
  refine ⟨?_, ?_, ?_, ?_⟩
  · intro pre suf content
    simp [readableStreamWrites, wWrite, wClose, pipeToLog]
  · intro pre suf content
    simp [nodeStreamWrites, wWrite, wClose, pipeToLog]
  · intro pre suf chunks
    exact ⟨rfl, rfl⟩
  · intro pre suf content
    refine ⟨?_, ?_, ?_⟩
    · simp [readableStreamWrites, wWrite, wClose, pipeToLog]
    · simp [readableStreamWrites, wWrite, wClose, pipeToLog]
    · have hsplit : readableStreamWrites pre suf content =
          (WriteEvent.chunk pre ::
            (content.chunks.map WriteEvent.chunk ++ [WriteEvent.chunk suf])) ++
            [WriteEvent.close] := by
        simp [readableStreamWrites, wWrite, wClose, pipeToLog]
      rw [hsplit, List.getLast?_concat]

end Site

namespace SiteV1

/-- C9: with `waitForAllReady` set, the body-acquisition promise — in the raw
and composed, node and readable forms alike — resolves exactly at the
instant the entire view tree (including suspended subtrees) has finished
rendering, never earlier; with it unset or absent, it resolves as soon as
the synchronous shell is ready. -/
theorem C9_waitForAllReady :
    ∀ tl : RenderTimeline, tl.shellAt ≤ tl.allAt →
      rawNodeStreamResolveAt true tl = some tl.allAt ∧
      rawReadableStreamResolveAt true tl = tl.allAt ∧
      nodeStreamResolveAt true tl = some tl.allAt ∧
      readableStreamResolveAt true tl = tl.allAt ∧
      rawNodeStreamResolveAt false tl = some tl.shellAt ∧
      rawReadableStreamResolveAt false tl = tl.shellAt ∧
      nodeStreamResolveAt false tl = some tl.shellAt ∧
      readableStreamResolveAt false tl = tl.shellAt := by
  intro tl h
  refine ⟨?_, ?_, ?_, ?_, rfl, rfl, rfl, rfl⟩
  · rfl
  · simp [rawReadableStreamResolveAt, Nat.max_eq_right h]
  · rfl
  · simp [readableStreamResolveAt, rawReadableStreamResolveAt,
      Nat.max_eq_right h]

/-- Witness for C9 on a concrete timeline (shell at 2, all-ready at 5): with
`waitForAllReady` the promise resolves at 5, without it at 2. -/
theorem C9_waitForAllReady_witness :
    (2 : Nat) ≤ 5 ∧
    rawNodeStreamResolveAt true { shellAt := 2, allAt := 5 } = some 5 ∧
    rawNodeStreamResolveAt false { shellAt := 2, allAt := 5 } = some 2 ∧
    readableStreamResolveAt true { shellAt := 2, allAt := 5 } = 5 := by
  refine ⟨by decide, ?_, ?_, ?_⟩
  · exact (C9_waitForAllReady { shellAt := 2, allAt := 5 } (by decide)).1
  · exact (C9_waitForAllReady { shellAt := 2, allAt := 5 } (by decide)).2.2.2.2.1
  · exact (C9_waitForAllReady { shellAt := 2, allAt := 5 } (by decide)).2.2.2.1

end SiteV1
